import Mathlib

/-!
# EFM8 lamp controller: button state machine and brightness engine

A shallow embedding of `src/lamp_main.c`.

* Machine integers are `Nat`; every increment or decrement of a fixed-width
  variable is written with its explicit modulus (`% 256` for `uint8_t`,
  `% 65536` for `uint16_t`).
* The function-local `static` variables (`debounceCount`, `prevState`,
  `delayCount`, `rateCount`), the indicator port latch `P1`, and a log of the
  calls made to `action` and `brightness_set` are carried in `Machine` next to
  the `settings` record, and passed explicitly from call to call.
* The button port `P3` is an input: each FSM function that reads it takes the
  reading as an argument.  One reading is used for all the tests of `P3`
  inside one call (the port is taken to be stable for the duration of a call).
-/

namespace Lamp

/-! ## Constants -/

/-- Source line 11. -/
def P3_BTN0__BMASK : Nat := 0x01
/-- Source line 12. -/
def P3_BTN1__BMASK : Nat := 0x02
/-- Source line 13. -/
def P3_BTN2__BMASK : Nat := 0x04
/-- Source line 14. -/
def P3_BTN3__BMASK : Nat := 0x08
/-- Source line 15. -/
def P3_BTN4__BMASK : Nat := 0x10

/-- Modelled from the spec: the vendor register header that declares
`P3_B0__BMASK` .. `P3_B4__BMASK` is not part of the sources.  The spec describes
five independent active-low inputs read as one port, logical bit `i` belonging
to button `i`; with the per-button masks of source lines 11-15 the mask of all
five buttons (source lines 8-9) is `0x1F`. -/
def P3_BTN_BMASK : Nat := 0x10 ||| 0x08 ||| 0x04 ||| 0x02 ||| 0x01

/-- Modelled from the spec: bit 4 of port 1 drives the indicator LED
(`P1_B4__BMASK` of the vendor register header, which is not part of the
sources). -/
def P1_B4__BMASK : Nat := 0x10

/-! ## Data model -/

/-- FSM states, `enum lampState` (source lines 19-25). -/
inductive lampState where
  | idle
  | debouncing
  | buttonPressed
  | buttonHeld
  | buttonReleased
deriving DecidableEq, Repr

/-- The record `struct lampSettings` (source lines 18-30).  `button`, `toggleOn`,
`channel` and `level` are `uint8_t` in the source. -/
structure lampSettings where
  state : lampState
  button : Nat
  toggleOn : Nat
  channel : Nat
  level : Nat
deriving DecidableEq, Repr

/-- Observable calls, recorded in program order. -/
inductive Event where
  | actionCall : Event
  | brightnessSet (channel0 channel1 : Nat) : Event
deriving DecidableEq, Repr

/-- Whole program state between two calls of the FSM functions. -/
structure Machine where
  /-- the `settings` record of `main` -/
  settings : lampSettings
  /-- the `static uint8_t debounceCount` of `debounce` -/
  debounceCount : Nat
  /-- the `static enum lampState prevState` of `debounce` -/
  prevState : lampState
  /-- the `static uint16_t delayCount` of `button_held` -/
  delayCount : Nat
  /-- the `static uint16_t rateCount` of `button_held` -/
  rateCount : Nat
  /-- latch of port 1 (8 bits); bit 4 is the indicator LED -/
  P1 : Nat
  /-- calls of `action` and `brightness_set` made so far, oldest first -/
  log : List Event
deriving DecidableEq, Repr

/-! ## Brightness engine -/

/-- Warm channel lookup table (source lines 153-172). -/
def brightness_table_channel0 : List Nat := [200, 310, 311, 312, 313, 314,
  315, 316, 316, 317, 318, 319, 320, 321, 322, 323, 324, 325, 326, 327, 328,
  328, 329, 330, 331, 332, 333, 334, 335, 336, 337, 338, 339, 340, 340, 341,
  342, 343, 344, 345, 346, 347, 348, 349, 350, 351, 351, 352, 353, 354, 355,
  356, 357, 358, 359, 360, 361, 362, 363, 363, 364, 365, 366, 367, 368, 369,
  370, 374, 377, 381, 385, 388, 392, 396, 400, 403, 407, 411, 414, 418, 422,
  425, 429, 433, 436, 440, 444, 448, 451, 455, 459, 462, 466, 470, 473, 477,
  481, 484, 488, 492, 496, 499, 503, 507, 510, 514, 518, 521, 525, 529, 533,
  536, 540, 544, 547, 551, 555, 558, 562, 566, 569, 573, 577, 581, 584, 588,
  592, 595, 599, 600, 614, 627, 641, 655, 668, 682, 696, 710, 723, 737, 751,
  764, 778, 792, 805, 819, 833, 846, 860, 874, 888, 901, 915, 929, 942, 956,
  970, 983, 997, 1011, 1024, 1038, 1052, 1066, 1079, 1093, 1107, 1120, 1134,
  1148, 1161, 1175, 1189, 1203, 1216, 1230, 1244, 1257, 1271, 1285, 1298,
  1312, 1326, 1339, 1353, 1367, 1381, 1394, 1408, 1422, 1435, 1449, 1450,
  1493, 1535, 1578, 1621, 1663, 1706, 1749, 1791, 1834, 1876, 1919, 1962,
  2004, 2047, 2090, 2132, 2175, 2218, 2260, 2303, 2346, 2388, 2431, 2473,
  2516, 2559, 2601, 2644, 2687, 2729, 2772, 2815, 2857, 2900, 2943, 2985,
  3028, 3071, 3113, 3156, 3198, 3241, 3284, 3326, 3369, 3412, 3454, 3497,
  3540, 3582, 3625, 3668, 3710, 3753, 3795, 3838, 3881, 3923, 3966, 4009,
  4051, 4094, 4095]

/-- Cool channel lookup table (source lines 175-193). -/
def brightness_table_channel1 : List Nat := [200, 310, 311, 311, 312, 312,
  313, 314, 314, 315, 315, 316, 317, 317, 318, 319, 319, 320, 320, 321, 322,
  322, 323, 323, 324, 325, 325, 326, 326, 327, 328, 328, 329, 330, 330, 331,
  331, 332, 333, 333, 334, 334, 335, 336, 336, 337, 337, 338, 339, 339, 340,
  340, 341, 342, 342, 343, 344, 344, 345, 345, 346, 347, 347, 348, 348, 349,
  350, 352, 353, 355, 356, 358, 360, 361, 363, 364, 366, 368, 369, 371, 372,
  374, 376, 377, 379, 380, 382, 384, 385, 387, 388, 390, 392, 393, 395, 396,
  398, 400, 401, 403, 404, 406, 407, 409, 411, 412, 414, 415, 417, 419, 420,
  422, 423, 425, 427, 428, 430, 431, 433, 435, 436, 438, 439, 441, 443, 444,
  446, 447, 449, 450, 453, 456, 460, 463, 466, 469, 472, 476, 479, 482, 485,
  489, 492, 495, 498, 501, 505, 508, 511, 514, 517, 521, 524, 527, 530, 533,
  537, 540, 543, 546, 550, 553, 556, 559, 562, 566, 569, 572, 575, 578, 582,
  585, 588, 591, 594, 598, 601, 604, 607, 610, 614, 617, 620, 623, 627, 630,
  633, 636, 639, 643, 646, 649, 650, 678, 706, 734, 763, 791, 819, 847, 875,
  903, 931, 959, 988, 1016, 1044, 1072, 1100, 1128, 1156, 1184, 1213, 1241,
  1269, 1297, 1325, 1353, 1381, 1409, 1438, 1466, 1494, 1522, 1550, 1578,
  1606, 1635, 1663, 1691, 1719, 1747, 1775, 1803, 1831, 1860, 1888, 1916,
  1944, 1972, 2000, 2028, 2056, 2085, 2113, 2141, 2169, 2197, 2225, 2253,
  2281, 2310, 2338, 2366, 2394, 2395]

/-- The routine `brightness_set` (source lines 149-198): the pair of arguments
it hands to `pwm_set`.  An array access is a partial lookup, so the result is
`none` when an index falls outside its table. -/
def brightness_set (channel0 channel1 : Nat) : Option (Nat × Nat) :=
  match brightness_table_channel0[channel0]?, brightness_table_channel1[channel1]? with
  | some target0, some target1 => some (target0, target1)
  | _, _ => none

/-- A call `brightness_set(channel0, channel1)` made by the state machine:
recorded in the log. -/
def call_brightness_set (m : Machine) (channel0 channel1 : Nat) : Machine :=
  { m with log := m.log ++ [Event.brightnessSet channel0 channel1] }

/-! ## PWM registers -/

/-- Special function registers that `pwm_set` writes. -/
inductive SfrReg where
  | SFRPAGE
  | PWMCFG0
  | PWMCPUDL0
  | PWMCPUDH0
  | PWMCPUDL1
  | PWMCPUDH1
deriving DecidableEq, Repr

/-- The register file seen by `pwm_set` (each register is 8 bits wide). -/
structure Sfr where
  SFRPAGE : Nat
  PWMCFG0 : Nat
  PWMCPUDL0 : Nat
  PWMCPUDH0 : Nat
  PWMCPUDL1 : Nat
  PWMCPUDH1 : Nat
deriving DecidableEq, Repr

/-- Effect of one register write on the register file. -/
def sfr_write (r : Sfr) (w : SfrReg × Nat) : Sfr :=
  match w.1 with
  | SfrReg.SFRPAGE => { r with SFRPAGE := w.2 }
  | SfrReg.PWMCFG0 => { r with PWMCFG0 := w.2 }
  | SfrReg.PWMCPUDL0 => { r with PWMCPUDL0 := w.2 }
  | SfrReg.PWMCPUDH0 => { r with PWMCPUDH0 := w.2 }
  | SfrReg.PWMCPUDL1 => { r with PWMCPUDL1 := w.2 }
  | SfrReg.PWMCPUDH1 => { r with PWMCPUDH1 := w.2 }

/-- Register file together with the register writes made so far, oldest
first. -/
structure Pwm where
  regs : Sfr
  writes : List (SfrReg × Nat)
deriving DecidableEq, Repr

/-- One assignment to a special function register: the register file is
updated and the write is recorded. -/
def reg_assign (p : Pwm) (reg : SfrReg) (value : Nat) : Pwm :=
  { regs := sfr_write p.regs (reg, value), writes := p.writes ++ [(reg, value)] }

/-- The routine `pwm_set` (source lines 115-141).  The two constants
`PWMCFG0_SYNCUPD__FMASK` and `PWMCFG0_SYNCUPD__CH0CH1CH2` come from the vendor
register header, which is not part of the sources: they are parameters.
`sfrpage_prev` is a `uint8_t`; the complement `~FMASK` is taken within the 8
bits of the register. -/
def pwm_set (PWMCFG0_SYNCUPD__FMASK PWMCFG0_SYNCUPD__CH0CH1CH2 : Nat)
    (p : Pwm) (channel0 channel1 : Nat) : Pwm :=
  let sfrpage_prev := p.regs.SFRPAGE % 256
  let p := reg_assign p SfrReg.SFRPAGE 0x10
  let p := reg_assign p SfrReg.PWMCFG0 (p.regs.PWMCFG0 &&& (0xFF ^^^ PWMCFG0_SYNCUPD__FMASK))
  let p := reg_assign p SfrReg.PWMCPUDL0 (channel0 &&& 0xff)
  let p := reg_assign p SfrReg.PWMCPUDH0 ((channel0 >>> 8) &&& 0xff)
  let p := reg_assign p SfrReg.PWMCPUDL1 (channel1 &&& 0xff)
  let p := reg_assign p SfrReg.PWMCPUDH1 ((channel1 >>> 8) &&& 0xff)
  let p := reg_assign p SfrReg.PWMCFG0 ((p.regs.PWMCFG0 ||| PWMCFG0_SYNCUPD__CH0CH1CH2) % 256)
  reg_assign p SfrReg.SFRPAGE sfrpage_prev

/-- Register file after the first `k` of a list of writes. -/
def replay (r : Sfr) (ws : List (SfrReg × Nat)) (k : Nat) : Sfr :=
  (ws.take k).foldl sfr_write r

/-! ## Button state machine -/

/-- The routine `action` (source lines 206-248).  The five tests are sequential
`if` statements, none has an `else`. -/
def action (m : Machine) : Machine :=
  let m := { m with log := m.log ++ [Event.actionCall] }
  -- Button 1 - Both channels on
  let m := if m.settings.button = 0x01 ∧ m.settings.toggleOn ≠ 0 then
      call_brightness_set m m.settings.level m.settings.level
    else m
  -- Button 1 - Both channels off
  let m := if m.settings.button = 0x00 ∧ m.settings.toggleOn = 0 then
      let m := { m with P1 := m.P1 &&& (0xFF ^^^ P1_B4__BMASK) }
      call_brightness_set m m.settings.level m.settings.level
    else m
  -- Button 2 - Cool channel on
  let m := if m.settings.button = 0x02 then
      call_brightness_set m 0 m.settings.level
    else m
  -- Button 3 - Warm channel on
  let m := if m.settings.button = 0x04 then
      call_brightness_set m m.settings.level 0
    else m
  -- Buttons 4 & 5 - Increase/decrease brightness
  if m.settings.button = 0x08 then
    let m := if m.settings.channel = 0x01 then
        call_brightness_set m m.settings.level m.settings.level
      else m
    let m := if m.settings.channel = 0x02 then
        call_brightness_set m 0 m.settings.level
      else m
    if m.settings.channel = 0x04 then
      call_brightness_set m m.settings.level 0
    else m
  else m

/-- The routine `debounce` (source lines 83-106).  It does not read the button
port. -/
def debounce (m : Machine) : Machine :=
  let m := if m.settings.state ≠ m.prevState then
      let m := { m with prevState := m.settings.state, debounceCount := 0 }
      if m.settings.state = lampState.buttonReleased then
        { m with settings := { m.settings with state := lampState.idle } }
      else m
    else m
  let m := { m with debounceCount := (m.debounceCount + 1) % 256 }
  if m.debounceCount > 10 then
    { m with
      prevState := lampState.idle
      settings := { m.settings with state := lampState.buttonPressed }
      P1 := m.P1 ||| P1_B4__BMASK }
  else m

/-- The routine `button_released` (source lines 255-262). -/
def button_released (m : Machine) : Machine :=
  { m with
    settings := { m.settings with state := lampState.idle }
    P1 := m.P1 &&& (0xFF ^^^ P1_B4__BMASK) }

/-- The routine `button_held` (source lines 270-318). -/
def button_held (m : Machine) (P3 : Nat) : Machine :=
  let m := { m with delayCount := (m.delayCount + 1) % 65536 }
  let m := { m with rateCount := (m.rateCount + 1) % 65536 }
  -- If button 4 is pressed, continue increasing brightness
  let m := if P3 &&& P3_BTN3__BMASK ≠ P3_BTN3__BMASK then
      if m.delayCount ≥ 350 then
        if m.rateCount ≥ 15 then
          let m := if m.settings.level < 255 then
              { m with settings := { m.settings with level := (m.settings.level + 1) % 256 } }
            else m
          let m := action m
          { m with rateCount := 0 }
        else m
      else m
    else m
  -- If button 5 is pressed, continue decreasing brightness
  let m := if P3 &&& P3_BTN4__BMASK ≠ P3_BTN4__BMASK then
      if m.delayCount ≥ 350 then
        if m.rateCount ≥ 15 then
          let m := if m.settings.level > 1 then
              { m with settings := { m.settings with level := m.settings.level - 1 } }
            else m
          let m := action m
          { m with rateCount := 0 }
        else m
      else m
    else m
  -- If any button is released
  if P3 &&& P3_BTN_BMASK = P3_BTN_BMASK then
    { m with
      settings := { m.settings with state := lampState.buttonReleased }
      delayCount := 0
      rateCount := 0 }
  else m

/-- The routine `button_pressed` (source lines 325-390). -/
def button_pressed (m : Machine) (P3 : Nat) : Machine :=
  let s := m.settings
  -- Button 1 - Both channels on/off
  let s := if P3 &&& P3_BTN0__BMASK ≠ P3_BTN0__BMASK then
      let s := if s.toggleOn = 0 ∧ s.button = 0x00 then
          { s with toggleOn := 1, button := 0x01, level := 180 }
        else s
      let s := if s.toggleOn ≠ 0 ∧ s.channel ≠ 0x01 then
          { s with toggleOn := 1, button := 0x01 }
        else
          { s with toggleOn := 0, button := 0x00, level := 0 }
      { s with channel := s.button }
    else s
  -- Button 2 - Cool channel on
  let s := if P3 &&& P3_BTN1__BMASK ≠ P3_BTN1__BMASK then
      let s := { s with button := 0x02 }
      { s with channel := s.button }
    else s
  -- Button 3 - Warm channel on
  let s := if P3 &&& P3_BTN2__BMASK ≠ P3_BTN2__BMASK then
      let s := { s with button := 0x04 }
      { s with channel := s.button }
    else s
  -- Button 4 - Increase brightness
  let s := if s.channel ≠ 0 ∧ P3 &&& P3_BTN3__BMASK ≠ P3_BTN3__BMASK then
      let s := if s.level < 255 then { s with level := (s.level + 1) % 256 } else s
      { s with button := 0x08 }
    else s
  -- Button 5 - Decrease brightness
  let s := if s.channel ≠ 0 ∧ P3 &&& P3_BTN4__BMASK ≠ P3_BTN4__BMASK then
      let s := if s.level > 1 then { s with level := s.level - 1 } else s
      { s with button := 0x08 }
    else s
  let m := action { m with settings := s }
  -- Transition to next state
  { m with settings := { m.settings with state := lampState.buttonHeld } }

/-- The routine `idle_state` (source lines 397-405). -/
def idle_state (m : Machine) (P3 : Nat) : Machine :=
  if P3 &&& P3_BTN_BMASK ≠ P3_BTN_BMASK then
    { m with settings := { m.settings with state := lampState.debouncing } }
  else m

/-- The routine `evaluate_state` (source lines 412-438). -/
def evaluate_state (m : Machine) (P3 : Nat) : Machine :=
  match m.settings.state with
  | lampState.idle => idle_state m P3
  | lampState.debouncing => debounce m
  | lampState.buttonPressed => button_pressed m P3
  | lampState.buttonHeld => button_held m P3
  | lampState.buttonReleased => button_released m

/-- State of the program when `main` (source lines 443-476) reaches its loop:
the initial `settings` record, the statics at their initial values (`prevState`
is a zero-initialised static, i.e. `idle`), the indicator switched off on top
of the port latch left by the hardware initialisation, and the call
`brightness_set(0, 0)` made. -/
def main_init (P1_reset : Nat) : Machine :=
  call_brightness_set
    { settings := { state := lampState.idle, button := 0x00, toggleOn := 0,
                    channel := 0x00, level := 0 }
      debounceCount := 0
      prevState := lampState.idle
      delayCount := 0
      rateCount := 0
      P1 := P1_reset &&& (0xFF ^^^ P1_B4__BMASK)
      log := [] }
    0 0

/-- The loop of `main`: `n` iterations, iteration `i` reading `port i` from the
button port. -/
def run (port : Nat → Nat) : Nat → Machine → Machine
  | 0, m => m
  | n + 1, m => evaluate_state (run port n m) (port n)

/-- States the program can be in at the top of the loop of `main`. -/
inductive Reachable : Machine → Prop where
  | init (P1_reset : Nat) : Reachable (main_init P1_reset)
  | tick (m : Machine) (P3 : Nat) : Reachable m → Reachable (evaluate_state m P3)

/-! ## Port readings -/

/-- The test the source applies to one button: `(P3 & mask) != mask`, true when
the (active-low) button reads pressed. -/
def pressed (P3 mask : Nat) : Prop := P3 &&& mask ≠ mask

instance (P3 mask : Nat) : Decidable (pressed P3 mask) := by
  unfold pressed; infer_instance

/-- The port reading `P3` shows exactly the given pattern on buttons 0..4
(`true` = pressed). -/
def reads (P3 : Nat) (b0 b1 b2 b3 b4 : Bool) : Prop :=
  (pressed P3 P3_BTN0__BMASK ↔ b0 = true) ∧
  (pressed P3 P3_BTN1__BMASK ↔ b1 = true) ∧
  (pressed P3 P3_BTN2__BMASK ↔ b2 = true) ∧
  (pressed P3 P3_BTN3__BMASK ↔ b3 = true) ∧
  (pressed P3 P3_BTN4__BMASK ↔ b4 = true)

instance (P3 : Nat) (b0 b1 b2 b3 b4 : Bool) : Decidable (reads P3 b0 b1 b2 b3 b4) := by
  unfold reads; infer_instance

/-! ## Concrete inputs -/

/-- Port reading with only button 0 low. -/
def P3_only0 : Nat := 0x1E
/-- Port reading with only button 1 low. -/
def P3_only1 : Nat := 0x1D
/-- Port reading with only button 3 low. -/
def P3_only3 : Nat := 0x17
/-- Port reading with only button 4 low. -/
def P3_only4 : Nat := 0x0F
/-- Port reading with all five buttons high. -/
def P3_none : Nat := 0x1F

/-- Fifteen-tick press cycle: the reading `P3` for thirteen ticks (one in
`idle`, eleven in `debouncing`, one in `buttonPressed`), then two ticks with
all buttons released.  `cycles [a, b, c]` is the trace made of the cycles for
`a`, `b`, `c`, followed by released readings for ever. -/
def cycles : List Nat → Nat → Nat
  | [], _ => P3_none
  | P3 :: rest, i => if i < 13 then P3 else if i < 15 then P3_none else cycles rest (i - 15)

/-- Lamp switched on by one press of button 0 from the initial state, the
machine back in `idle`. -/
def lamp_on : Machine := run (cycles [P3_only0]) 15 (main_init 0xFF)

/-- From the initial state: press cool-only, press increase, press cool-only
again; the machine is back in `idle`. -/
def lamp_cool_unpowered : Machine :=
  run (cycles [P3_only1, P3_only3, P3_only1]) 45 (main_init 0xFF)

/-- From the initial state: press button 0 (lamp on), then press cool-only; the
machine is back in `idle`. -/
def lamp_cool_powered : Machine :=
  run (cycles [P3_only0, P3_only1]) 30 (main_init 0xFF)

/-- Port trace of a glitch: button 0 reads pressed for six ticks (the tick in
`idle` and five ticks of `debouncing`), all buttons read released afterwards. -/
def glitch (i : Nat) : Nat := if i < 6 then P3_only0 else P3_none

/-- Lamp on, then button 3 pressed and still held: thirteen ticks reading
button 3 bring the machine from `idle` through `debouncing` and `buttonPressed`
into `buttonHeld`. -/
def held_increase : Machine := run (fun _ => P3_only3) 13 lamp_on

/-- A sequence of adjustment steps: each step is one call of `button_pressed`
(`true`) or one tick of `button_held` (`false`) with the given port reading. -/
def adjust_steps : List (Bool × Nat) → Machine → Machine
  | [], m => m
  | (true, P3) :: rest, m => adjust_steps rest (button_pressed m P3)
  | (false, P3) :: rest, m => adjust_steps rest (button_held m P3)


/-! ## Blocks of `button_pressed` -/

/-- Source lines 329-350 of `button_pressed`: the button 0 block. -/
def toggle_block (s : lampSettings) (P3 : Nat) : lampSettings :=
  if P3 &&& P3_BTN0__BMASK ≠ P3_BTN0__BMASK then
    let s := if s.toggleOn = 0 ∧ s.button = 0x00 then
        { s with toggleOn := 1, button := 0x01, level := 180 }
      else s
    let s := if s.toggleOn ≠ 0 ∧ s.channel ≠ 0x01 then
        { s with toggleOn := 1, button := 0x01 }
      else
        { s with toggleOn := 0, button := 0x00, level := 0 }
    { s with channel := s.button }
  else s

/-- Source lines 355-364 of `button_pressed`: the button 1 and button 2
blocks. -/
def select_block (s : lampSettings) (P3 : Nat) : lampSettings :=
  let s := if P3 &&& P3_BTN1__BMASK ≠ P3_BTN1__BMASK then
      let s := { s with button := 0x02 }
      { s with channel := s.button }
    else s
  if P3 &&& P3_BTN2__BMASK ≠ P3_BTN2__BMASK then
    let s := { s with button := 0x04 }
    { s with channel := s.button }
  else s

/-- Source lines 368-384 of `button_pressed`: the button 3 and button 4
blocks. -/
def adjust_block (s : lampSettings) (P3 : Nat) : lampSettings :=
  let s := if s.channel ≠ 0 ∧ P3 &&& P3_BTN3__BMASK ≠ P3_BTN3__BMASK then
      let s := if s.level < 255 then { s with level := (s.level + 1) % 256 } else s
      { s with button := 0x08 }
    else s
  if s.channel ≠ 0 ∧ P3 &&& P3_BTN4__BMASK ≠ P3_BTN4__BMASK then
    let s := if s.level > 1 then { s with level := s.level - 1 } else s
    { s with button := 0x08 }
  else s

/-- Level invariant of the settings record: power on implies a level in
1..255 and an active channel. -/
def level_inv (s : lampSettings) : Prop :=
  s.toggleOn ≠ 0 →
    1 ≤ s.level ∧ s.level ≤ 255 ∧ (s.channel = 1 ∨ s.channel = 2 ∨ s.channel = 4)

/-- Boolean check that each entry of a list is at most its successor. -/
def nondecreasing : List Nat → Bool
  | a :: b :: rest => decide (a ≤ b) && nondecreasing (b :: rest)
  | _ => true

/-- Port reading with only button 2 low. -/
def P3_only2 : Nat := 0x1B
/-- Port reading with buttons 3 and 4 low. -/
def P3_both34 : Nat := 0x07

/-- A register file as some unrelated code could leave it: page 0, the SYNCUPD
field and another bit of `PWMCFG0` set, stale update registers. -/
def pwm_reset : Pwm :=
  { regs := { SFRPAGE := 0x00, PWMCFG0 := 0x71, PWMCPUDL0 := 0xC8, PWMCPUDH0 := 0x00,
              PWMCPUDL1 := 0xC8, PWMCPUDH1 := 0x00 }
    writes := [] }

/-! ## Closed forms and counters -/

/-- Closed form of the calls of `brightness_set` that `action` makes, as a
function of the four fields it reads (derived from `action`; lemma `action_log`
relates the two). -/
def action_calls (button toggleOn channel level : Nat) : List Event :=
  if button = 1 then
    if toggleOn ≠ 0 then [Event.brightnessSet level level] else []
  else if button = 0 then
    if toggleOn = 0 then [Event.brightnessSet level level] else []
  else if button = 2 then [Event.brightnessSet 0 level]
  else if button = 4 then [Event.brightnessSet level 0]
  else if button = 8 then
    if channel = 1 then [Event.brightnessSet level level]
    else if channel = 2 then [Event.brightnessSet 0 level]
    else if channel = 4 then [Event.brightnessSet level 0]
    else []
  else []

/-- The arguments handed to `pwm_set` by the calls of `brightness_set` in a
log, in order. -/
def pwm_calls : List Event → List (Option (Nat × Nat))
  | [] => []
  | Event.actionCall :: rest => pwm_calls rest
  | Event.brightnessSet channel0 channel1 :: rest =>
    brightness_set channel0 channel1 :: pwm_calls rest

/-- Successor in the cycle Idle, Debouncing, ButtonPressed, ButtonHeld,
ButtonReleased, Idle. -/
def next_state : lampState → lampState
  | lampState.idle => lampState.debouncing
  | lampState.debouncing => lampState.buttonPressed
  | lampState.buttonPressed => lampState.buttonHeld
  | lampState.buttonHeld => lampState.buttonReleased
  | lampState.buttonReleased => lampState.idle

/-- Counters of `button_held` are at rest outside the state `buttonHeld`. -/
def hold_inv (m : Machine) : Prop :=
  m.settings.state ≠ lampState.buttonHeld → m.delayCount = 0 ∧ m.rateCount = 0

/-- Button, channel and power of the settings record go together: the record
is in one of the five modes None (off), Both (on), CoolOnly, WarmOnly, or Adjust
with an active channel. -/
def mode_inv (s : lampSettings) : Prop :=
  (s.button = 0 ∧ s.channel = 0 ∧ s.toggleOn = 0) ∨
  (s.button = 1 ∧ s.channel = 1 ∧ s.toggleOn ≠ 0) ∨
  (s.button = 2 ∧ s.channel = 2) ∨
  (s.button = 4 ∧ s.channel = 4) ∨
  (s.button = 8 ∧ (s.channel = 1 ∨ s.channel = 2 ∨ s.channel = 4))

/-- Number of ticks, among the first `n` of a run, in which `button_pressed`
runs (the machine is in state `buttonPressed` when the tick starts). -/
def pressed_ticks (port : Nat → Nat) (m : Machine) : Nat → Nat
  | 0 => 0
  | n + 1 => pressed_ticks port m n +
      (if (run port n m).settings.state = lampState.buttonPressed then 1 else 0)

/-! ## Invariants -/

/-- The static variables of `debounce` are in step with the FSM state: either
`prevState` is `idle` (at rest, or `debouncing` just entered), or the machine is
in the middle of a debounce window. -/
def debounce_inv (m : Machine) : Prop :=
  m.prevState = lampState.idle ∨
  (m.settings.state = lampState.debouncing ∧ m.prevState = lampState.debouncing ∧
    1 ≤ m.debounceCount ∧ m.debounceCount ≤ 10)

/-! ## Auxiliary lemmas -/

/-! ### Port readings -/

/-- A mask within the low five bits only sees the low five bits of the port. -/
theorem land_mod32 (P3 k : Nat) (hk : 31 &&& k = k) : P3 &&& k = (P3 % 32) &&& k := by
  have h : P3 % 32 = P3 &&& 31 := (Nat.and_pow_two_sub_one_eq_mod P3 5).symm
  rw [h, Nat.and_assoc, hk]

/-- Case check over the 32 patterns of the five button bits. -/
theorem fin32_released : ∀ r : Fin 32,
    (r.val &&& 31 = 31 ↔
      (r.val &&& 1 = 1 ∧ r.val &&& 2 = 2 ∧ r.val &&& 4 = 4 ∧ r.val &&& 8 = 8 ∧
        r.val &&& 16 = 16)) := by
  decide

/-- The all-buttons test of `idle_state` and `button_held` succeeds exactly
when each of the five single-button tests finds its button released. -/
theorem all_released_iff (P3 : Nat) :
    P3 &&& P3_BTN_BMASK = P3_BTN_BMASK ↔
      (P3 &&& P3_BTN0__BMASK = P3_BTN0__BMASK ∧ P3 &&& P3_BTN1__BMASK = P3_BTN1__BMASK ∧
       P3 &&& P3_BTN2__BMASK = P3_BTN2__BMASK ∧ P3 &&& P3_BTN3__BMASK = P3_BTN3__BMASK ∧
       P3 &&& P3_BTN4__BMASK = P3_BTN4__BMASK) := by
  have h := fin32_released ⟨P3 % 32, Nat.mod_lt _ (by decide)⟩
  simp only [] at h
  show P3 &&& 31 = 31 ↔
    (P3 &&& 1 = 1 ∧ P3 &&& 2 = 2 ∧ P3 &&& 4 = 4 ∧ P3 &&& 8 = 8 ∧ P3 &&& 16 = 16)
  rw [land_mod32 P3 31 (by decide), land_mod32 P3 1 (by decide), land_mod32 P3 2 (by decide),
    land_mod32 P3 4 (by decide), land_mod32 P3 8 (by decide), land_mod32 P3 16 (by decide)]
  exact h

/-- What `reads` says about the five tests of the source. -/
theorem reads_tests {P3 : Nat} {b0 b1 b2 b3 b4 : Bool} (h : reads P3 b0 b1 b2 b3 b4) :
    (P3 &&& P3_BTN0__BMASK = P3_BTN0__BMASK ↔ b0 = false) ∧
    (P3 &&& P3_BTN1__BMASK = P3_BTN1__BMASK ↔ b1 = false) ∧
    (P3 &&& P3_BTN2__BMASK = P3_BTN2__BMASK ↔ b2 = false) ∧
    (P3 &&& P3_BTN3__BMASK = P3_BTN3__BMASK ↔ b3 = false) ∧
    (P3 &&& P3_BTN4__BMASK = P3_BTN4__BMASK ↔ b4 = false) := by
  obtain ⟨h0, h1, h2, h3, h4⟩ := h
  simp only [pressed] at h0 h1 h2 h3 h4
  refine ⟨?_, ?_, ?_, ?_, ?_⟩
  · rw [← Bool.not_eq_true, ← h0]; exact not_not.symm
  · rw [← Bool.not_eq_true, ← h1]; exact not_not.symm
  · rw [← Bool.not_eq_true, ← h2]; exact not_not.symm
  · rw [← Bool.not_eq_true, ← h3]; exact not_not.symm
  · rw [← Bool.not_eq_true, ← h4]; exact not_not.symm

/-! ### Frame properties -/

/-- Routine `action` only reads the settings record. -/
theorem action_settings (m : Machine) : (action m).settings = m.settings := by
  simp [action, call_brightness_set, apply_ite Machine.settings]

/-- Routine `action` leaves the static counters alone. -/
theorem action_statics (m : Machine) :
    (action m).debounceCount = m.debounceCount ∧ (action m).prevState = m.prevState ∧
    (action m).delayCount = m.delayCount ∧ (action m).rateCount = m.rateCount := by
  simp [action, call_brightness_set, apply_ite Machine.settings,
    apply_ite Machine.debounceCount, apply_ite Machine.prevState,
    apply_ite Machine.delayCount, apply_ite Machine.rateCount]

/-- Routine `button_held` leaves the statics of `debounce` and the fields
`button`, `toggleOn` and `channel` alone. -/
theorem button_held_frame (m : Machine) (P3 : Nat) :
    (button_held m P3).prevState = m.prevState ∧
    (button_held m P3).debounceCount = m.debounceCount ∧
    (button_held m P3).settings.button = m.settings.button ∧
    (button_held m P3).settings.toggleOn = m.settings.toggleOn ∧
    (button_held m P3).settings.channel = m.settings.channel := by
  simp [button_held, apply_ite Machine.prevState, apply_ite Machine.debounceCount,
    apply_ite Machine.settings, apply_ite Machine.delayCount, apply_ite Machine.rateCount,
    apply_ite lampSettings.button, apply_ite lampSettings.toggleOn,
    apply_ite lampSettings.channel, action_statics, action_settings]

/-- Routine `button_pressed` leaves all static counters alone and always moves to
`buttonHeld`. -/
theorem button_pressed_frame (m : Machine) (P3 : Nat) :
    (button_pressed m P3).prevState = m.prevState ∧
    (button_pressed m P3).debounceCount = m.debounceCount ∧
    (button_pressed m P3).delayCount = m.delayCount ∧
    (button_pressed m P3).rateCount = m.rateCount ∧
    (button_pressed m P3).settings.state = lampState.buttonHeld := by
  simp [button_pressed, action_statics, action_settings]

/-! ### Debounce window -/

/-- First call of `debounce` after `debouncing` was entered: the counter restarts
and reaches 1. -/
theorem debounce_first (m : Machine) (hs : m.settings.state = lampState.debouncing)
    (hp : m.prevState = lampState.idle) :
    debounce m = { m with prevState := lampState.debouncing, debounceCount := 1 } := by
  simp [debounce, hs, hp]

/-- A later call of `debounce` inside the window: the counter goes up by one. -/
theorem debounce_next (m : Machine) (hs : m.settings.state = lampState.debouncing)
    (hp : m.prevState = lampState.debouncing) (hc : m.debounceCount < 10) :
    debounce m = { m with debounceCount := m.debounceCount + 1 } := by
  have h1 : (m.debounceCount + 1) % 256 = m.debounceCount + 1 := by omega
  have h2 : ¬ (10 < m.debounceCount + 1) := by omega
  simp [debounce, hs, hp, h1, h2]

/-- The call of `debounce` that finds the counter at 10: the counter reaches 11,
the state becomes `buttonPressed` and the indicator is switched on. -/
theorem debounce_fire (m : Machine) (hs : m.settings.state = lampState.debouncing)
    (hp : m.prevState = lampState.debouncing) (hc : m.debounceCount = 10) :
    debounce m = { m with
      debounceCount := 11
      prevState := lampState.idle
      settings := { m.settings with state := lampState.buttonPressed }
      P1 := m.P1 ||| P1_B4__BMASK } := by
  simp [debounce, hs, hp, hc]

/-- One tick preserves `debounce_inv`. -/
theorem debounce_inv_step (m : Machine) (P3 : Nat) (h : debounce_inv m) :
    debounce_inv (evaluate_state m P3) := by
  unfold debounce_inv at h ⊢
  rcases hst : m.settings.state with _ | _ | _ | _ | _
  · rcases h with h | h
    · left; simp only [evaluate_state, hst, idle_state]; split <;> exact h
    · rw [hst] at h; exact absurd h.1 (by decide)
  · rcases h with h | ⟨_, hp, h1, h10⟩
    · right
      simp [evaluate_state, hst, debounce_first m hst h]
    · by_cases hc : m.debounceCount < 10
      · right
        have e : evaluate_state m P3 = debounce m := by simp [evaluate_state, hst]
        rw [e, debounce_next m hst hp hc]
        exact ⟨hst, hp, Nat.le_add_left _ _, hc⟩
      · left
        simp [evaluate_state, hst, debounce_fire m hst hp (by omega)]
  · rcases h with h | h
    · left; simp only [evaluate_state, hst]; rw [(button_pressed_frame m P3).1]; exact h
    · rw [hst] at h; exact absurd h.1 (by decide)
  · rcases h with h | h
    · left; simp only [evaluate_state, hst]; rw [(button_held_frame m P3).1]; exact h
    · rw [hst] at h; exact absurd h.1 (by decide)
  · rcases h with h | h
    · left; simp only [evaluate_state, hst, button_released]; exact h
    · rw [hst] at h; exact absurd h.1 (by decide)

/-- The invariant `debounce_inv` holds in every reachable state. -/
theorem reachable_debounce_inv (m : Machine) (h : Reachable m) : debounce_inv m := by
  induction h with
  | init p => left; rfl
  | tick m P3 _ ih => exact debounce_inv_step m P3 ih

/-- In a reachable `idle` state the statics of `debounce` are at rest. -/
theorem reachable_idle_prevState (m : Machine) (h : Reachable m)
    (hs : m.settings.state = lampState.idle) : m.prevState = lampState.idle := by
  rcases reachable_debounce_inv m h with h | h
  · exact h
  · rw [hs] at h; exact absurd h.1 (by decide)

/-- Unfolding of one loop iteration. -/
theorem run_succ (port : Nat → Nat) (n : Nat) (m : Machine) :
    run port (n + 1) m = evaluate_state (run port n m) (port n) := rfl

/-- The debounce window: from `idle` with the statics of `debounce` at rest and
a press at the first tick, the machine is in `debouncing` with counter `k`
after `1 + k` ticks (`1 ≤ k ≤ 10`) and nothing else has changed. -/
theorem debounce_window (m : Machine) (port : Nat → Nat)
    (hs : m.settings.state = lampState.idle) (hp : m.prevState = lampState.idle)
    (hpress : pressed (port 0) P3_BTN_BMASK) (k : Nat) (hk : k < 10) :
    run port (k + 2) m =
      { m with
        settings := { m.settings with state := lampState.debouncing }
        prevState := lampState.debouncing
        debounceCount := k + 1 } := by
  have h1 : run port 1 m =
      { m with settings := { m.settings with state := lampState.debouncing } } := by
    unfold pressed at hpress
    simp [run, evaluate_state, hs, idle_state, hpress]
  induction k with
  | zero =>
    rw [run_succ, h1]
    simp [evaluate_state, debounce_first, hp]
  | succ j ih =>
    rw [run_succ, ih (by omega)]
    simp only [evaluate_state]
    rw [debounce_next _ rfl rfl (by simp; omega)]

/-- End of the debounce window: the twelfth tick sets `buttonPressed`. -/
theorem debounce_window_end (m : Machine) (port : Nat → Nat)
    (hs : m.settings.state = lampState.idle) (hp : m.prevState = lampState.idle)
    (hpress : pressed (port 0) P3_BTN_BMASK) :
    run port 12 m =
      { m with
        settings := { m.settings with state := lampState.buttonPressed }
        prevState := lampState.idle
        debounceCount := 11
        P1 := m.P1 ||| P1_B4__BMASK } := by
  rw [run_succ, debounce_window m port hs hp hpress 9 (by omega)]
  simp only [evaluate_state]
  rw [debounce_fire _ rfl rfl rfl]

/-- Running the loop from a reachable state gives a reachable state. -/
theorem reachable_run (port : Nat → Nat) (n : Nat) (m : Machine) (h : Reachable m) :
    Reachable (run port n m) := by
  induction n with
  | zero => exact h
  | succ n ih => exact Reachable.tick _ _ ih

/-- When the all-buttons test finds nothing pressed, so does each single-button
test. -/
theorem released_tests {P3 : Nat} (h : ¬ pressed P3 P3_BTN_BMASK) :
    P3 &&& P3_BTN_BMASK = P3_BTN_BMASK ∧
    P3 &&& P3_BTN0__BMASK = P3_BTN0__BMASK ∧ P3 &&& P3_BTN1__BMASK = P3_BTN1__BMASK ∧
    P3 &&& P3_BTN2__BMASK = P3_BTN2__BMASK ∧ P3 &&& P3_BTN3__BMASK = P3_BTN3__BMASK ∧
    P3 &&& P3_BTN4__BMASK = P3_BTN4__BMASK := by
  have h' : P3 &&& P3_BTN_BMASK = P3_BTN_BMASK := by
    unfold pressed at h; exact not_not.mp h
  exact ⟨h', (all_released_iff P3).mp h'⟩

/-- Routine `button_pressed` when no button reads pressed: only `action` runs. -/
theorem button_pressed_released (m : Machine) (P3 : Nat) (h : ¬ pressed P3 P3_BTN_BMASK) :
    button_pressed m P3 =
      { action m with settings := { m.settings with state := lampState.buttonHeld } } := by
  obtain ⟨_, h0, h1, h2, h3, h4⟩ := released_tests h
  simp [button_pressed, h0, h1, h2, h3, h4, action_settings]

/-- Routine `button_held` when no button reads pressed. -/
theorem button_held_released (m : Machine) (P3 : Nat) (h : ¬ pressed P3 P3_BTN_BMASK) :
    button_held m P3 =
      { m with
        settings := { m.settings with state := lampState.buttonReleased }
        delayCount := 0
        rateCount := 0 } := by
  obtain ⟨ha, _, _, _, h3, h4⟩ := released_tests h
  simp [button_held, ha, h3, h4]

/-! ### The cases of `action` -/

/-- Button Both, power on. -/
theorem action_both_on (m : Machine) (hb : m.settings.button = 1)
    (ht : m.settings.toggleOn ≠ 0) :
    action m = { m with log := m.log ++
      [Event.actionCall, Event.brightnessSet m.settings.level m.settings.level] } := by
  simp [action, call_brightness_set, hb, ht]

/-- Button Both, power off: no call of `brightness_set`. -/
theorem action_both_unpowered (m : Machine) (hb : m.settings.button = 1)
    (ht : m.settings.toggleOn = 0) :
    action m = { m with log := m.log ++ [Event.actionCall] } := by
  simp [action, call_brightness_set, hb, ht]

/-- Button None, power off. -/
theorem action_off (m : Machine) (hb : m.settings.button = 0)
    (ht : m.settings.toggleOn = 0) :
    action m = { m with
      P1 := m.P1 &&& (0xFF ^^^ P1_B4__BMASK)
      log := m.log ++
        [Event.actionCall, Event.brightnessSet m.settings.level m.settings.level] } := by
  simp [action, call_brightness_set, hb, ht]

/-- Button None, power on: no call of `brightness_set`. -/
theorem action_none_powered (m : Machine) (hb : m.settings.button = 0)
    (ht : m.settings.toggleOn ≠ 0) :
    action m = { m with log := m.log ++ [Event.actionCall] } := by
  simp [action, call_brightness_set, hb, ht]

/-- Button CoolOnly. -/
theorem action_cool (m : Machine) (hb : m.settings.button = 2) :
    action m = { m with log := m.log ++
      [Event.actionCall, Event.brightnessSet 0 m.settings.level] } := by
  simp [action, call_brightness_set, hb]

/-- Button WarmOnly. -/
theorem action_warm (m : Machine) (hb : m.settings.button = 4) :
    action m = { m with log := m.log ++
      [Event.actionCall, Event.brightnessSet m.settings.level 0] } := by
  simp [action, call_brightness_set, hb]

/-- Button Adjust, channel Both. -/
theorem action_adjust_both (m : Machine) (hb : m.settings.button = 8)
    (hc : m.settings.channel = 1) :
    action m = { m with log := m.log ++
      [Event.actionCall, Event.brightnessSet m.settings.level m.settings.level] } := by
  simp [action, call_brightness_set, hb, hc]

/-- Button Adjust, channel Cool. -/
theorem action_adjust_cool (m : Machine) (hb : m.settings.button = 8)
    (hc : m.settings.channel = 2) :
    action m = { m with log := m.log ++
      [Event.actionCall, Event.brightnessSet 0 m.settings.level] } := by
  simp [action, call_brightness_set, hb, hc]

/-- Button Adjust, channel Warm. -/
theorem action_adjust_warm (m : Machine) (hb : m.settings.button = 8)
    (hc : m.settings.channel = 4) :
    action m = { m with log := m.log ++
      [Event.actionCall, Event.brightnessSet m.settings.level 0] } := by
  simp [action, call_brightness_set, hb, hc]

/-- Button Adjust, no channel among Both, Cool, Warm: no call of
`brightness_set`. -/
theorem action_adjust_none (m : Machine) (hb : m.settings.button = 8)
    (h1 : m.settings.channel ≠ 1) (h2 : m.settings.channel ≠ 2)
    (h4 : m.settings.channel ≠ 4) :
    action m = { m with log := m.log ++ [Event.actionCall] } := by
  simp [action, call_brightness_set, hb, h1, h2, h4]

/-- Any other button code: no call of `brightness_set`. -/
theorem action_other (m : Machine) (h0 : m.settings.button ≠ 0)
    (h1 : m.settings.button ≠ 1) (h2 : m.settings.button ≠ 2)
    (h4 : m.settings.button ≠ 4) (h8 : m.settings.button ≠ 8) :
    action m = { m with log := m.log ++ [Event.actionCall] } := by
  simp [action, call_brightness_set, h0, h1, h2, h4, h8]

/-- Every call of `action` is logged, followed by what it passes on to
`brightness_set`: at most one call. -/
theorem action_log_prefix (m : Machine) :
    ∃ calls, (action m).log = m.log ++ Event.actionCall :: calls ∧ calls.length ≤ 1 := by
  by_cases h0 : m.settings.button = 0
  · by_cases ht : m.settings.toggleOn = 0
    · exact ⟨_, by rw [action_off m h0 ht], by simp⟩
    · exact ⟨[], by rw [action_none_powered m h0 ht], by simp⟩
  by_cases h1 : m.settings.button = 1
  · by_cases ht : m.settings.toggleOn = 0
    · exact ⟨[], by rw [action_both_unpowered m h1 ht], by simp⟩
    · exact ⟨_, by rw [action_both_on m h1 ht], by simp⟩
  by_cases h2 : m.settings.button = 2
  · exact ⟨_, by rw [action_cool m h2], by simp⟩
  by_cases h4 : m.settings.button = 4
  · exact ⟨_, by rw [action_warm m h4], by simp⟩
  by_cases h8 : m.settings.button = 8
  · by_cases c1 : m.settings.channel = 1
    · exact ⟨_, by rw [action_adjust_both m h8 c1], by simp⟩
    by_cases c2 : m.settings.channel = 2
    · exact ⟨_, by rw [action_adjust_cool m h8 c2], by simp⟩
    by_cases c4 : m.settings.channel = 4
    · exact ⟨_, by rw [action_adjust_warm m h8 c4], by simp⟩
    exact ⟨[], by rw [action_adjust_none m h8 c1 c2 c4], by simp⟩
  exact ⟨[], by rw [action_other m h0 h1 h2 h4 h8], by simp⟩

/-! ### Typematic repeat -/

/-- Routine `button_held` on a tick without typematic repeat, button 4 not pressed and
some button still pressed: only the counters move. -/
theorem button_held_wait (m : Machine) (P3 : Nat)
    (h3 : P3 &&& P3_BTN3__BMASK ≠ P3_BTN3__BMASK)
    (h4 : P3 &&& P3_BTN4__BMASK = P3_BTN4__BMASK)
    (hw : (m.delayCount + 1) % 65536 < 350 ∨ (m.rateCount + 1) % 65536 < 15) :
    button_held m P3 =
      { m with
        delayCount := (m.delayCount + 1) % 65536
        rateCount := (m.rateCount + 1) % 65536 } := by
  have ha : ¬ (P3 &&& P3_BTN_BMASK = P3_BTN_BMASK) := fun h =>
    h3 ((all_released_iff P3).mp h).2.2.2.1
  rcases hw with hw | hw
  · have : ¬ (350 ≤ (m.delayCount + 1) % 65536) := by omega
    simp [button_held, h3, h4, ha, this]
  · have : ¬ (15 ≤ (m.rateCount + 1) % 65536) := by omega
    simp [button_held, h3, h4, ha, this]

/-- Routine `button_held` on a tick with typematic repeat of the increase button. -/
theorem button_held_repeat_up (m : Machine) (P3 : Nat)
    (h3 : P3 &&& P3_BTN3__BMASK ≠ P3_BTN3__BMASK)
    (h4 : P3 &&& P3_BTN4__BMASK = P3_BTN4__BMASK)
    (hd : 350 ≤ (m.delayCount + 1) % 65536) (hr : 15 ≤ (m.rateCount + 1) % 65536) :
    button_held m P3 =
      { action { m with
          delayCount := (m.delayCount + 1) % 65536
          rateCount := (m.rateCount + 1) % 65536
          settings := { m.settings with
            level := if m.settings.level < 255 then (m.settings.level + 1) % 256
              else m.settings.level } } with
        rateCount := 0 } := by
  have ha : ¬ (P3 &&& P3_BTN_BMASK = P3_BTN_BMASK) := fun h =>
    h3 ((all_released_iff P3).mp h).2.2.2.1
  by_cases hl : m.settings.level < 255
  · simp [button_held, h3, h4, ha, hd, hr, hl]
  · simp [button_held, h3, h4, ha, hd, hr, hl]

/-- Dispatch of `evaluate_state` in state `buttonHeld`. -/
theorem evaluate_state_held (m : Machine) (P3 : Nat)
    (hs : m.settings.state = lampState.buttonHeld) :
    evaluate_state m P3 = button_held m P3 := by
  simp [evaluate_state, hs]

/-- Field by field form of `button_held_wait`. -/
theorem button_held_wait_fields (m : Machine) (P3 : Nat)
    (h3 : P3 &&& P3_BTN3__BMASK ≠ P3_BTN3__BMASK)
    (h4 : P3 &&& P3_BTN4__BMASK = P3_BTN4__BMASK)
    (hw : (m.delayCount + 1) % 65536 < 350 ∨ (m.rateCount + 1) % 65536 < 15) :
    (button_held m P3).settings = m.settings ∧
    (button_held m P3).log = m.log ∧
    (button_held m P3).delayCount = (m.delayCount + 1) % 65536 ∧
    (button_held m P3).rateCount = (m.rateCount + 1) % 65536 := by
  rw [button_held_wait m P3 h3 h4 hw]
  exact ⟨rfl, rfl, rfl, rfl⟩

/-- Field by field form of `button_held_repeat_up`. -/
theorem button_held_repeat_up_fields (m : Machine) (P3 : Nat)
    (h3 : P3 &&& P3_BTN3__BMASK ≠ P3_BTN3__BMASK)
    (h4 : P3 &&& P3_BTN4__BMASK = P3_BTN4__BMASK)
    (hd : 350 ≤ (m.delayCount + 1) % 65536) (hr : 15 ≤ (m.rateCount + 1) % 65536) :
    (button_held m P3).settings.state = m.settings.state ∧
    (button_held m P3).delayCount = (m.delayCount + 1) % 65536 ∧
    (button_held m P3).rateCount = 0 := by
  rw [button_held_repeat_up m P3 h3 h4 hd hr]
  dsimp only
  rw [action_settings, (action_statics _).2.2.1]
  exact ⟨rfl, rfl, rfl⟩

/-- Counters of `button_held` during a hold of the increase button, up to the
last tick before `delayCount` overflows. -/
theorem hold_counters (m : Machine) (P3 : Nat)
    (h3 : P3 &&& P3_BTN3__BMASK ≠ P3_BTN3__BMASK)
    (h4 : P3 &&& P3_BTN4__BMASK = P3_BTN4__BMASK)
    (hs : m.settings.state = lampState.buttonHeld)
    (hd : m.delayCount = 0) (hr : m.rateCount = 0) (n : Nat) (hn : n ≤ 65535) :
    (run (fun _ => P3) n m).settings.state = lampState.buttonHeld ∧
    (run (fun _ => P3) n m).delayCount = n ∧
    (run (fun _ => P3) n m).rateCount = if n < 350 then n else (n - 350) % 15 := by
  induction n with
  | zero => exact ⟨hs, hd, by simp [run, hr]⟩
  | succ n ih =>
    obtain ⟨is, id, ir⟩ := ih (by omega)
    rw [run_succ, evaluate_state_held _ _ is]
    generalize run (fun _ => P3) n m = r at is id ir ⊢
    have hmod : (n + 1) % 65536 = n + 1 := Nat.mod_eq_of_lt (by omega)
    by_cases hw : (r.delayCount + 1) % 65536 < 350 ∨ (r.rateCount + 1) % 65536 < 15
    · obtain ⟨ws, _, wd, wr⟩ := button_held_wait_fields r P3 h3 h4 hw
      rw [ws, wd, wr]
      rw [id, ir] at hw
      rw [id, ir]
      apply And.intro is
      apply And.intro hmod
      split_ifs at hw ⊢ <;> omega
    · have hd' : 350 ≤ (r.delayCount + 1) % 65536 := by omega
      have hr' : 15 ≤ (r.rateCount + 1) % 65536 := by omega
      obtain ⟨ws, wd, wr⟩ := button_held_repeat_up_fields r P3 h3 h4 hd' hr'
      rw [ws, wd, wr]
      rw [id] at hd'
      rw [ir] at hr'
      rw [id]
      apply And.intro is
      apply And.intro hmod
      split_ifs at hr' ⊢ <;> omega

/-- After `delayCount` has overflowed the typematic delay is waited for again:
no tick repeats while the counter climbs back from 0 to 349. -/
theorem hold_after_overflow (m : Machine) (P3 : Nat)
    (h3 : P3 &&& P3_BTN3__BMASK ≠ P3_BTN3__BMASK)
    (h4 : P3 &&& P3_BTN4__BMASK = P3_BTN4__BMASK)
    (hs : m.settings.state = lampState.buttonHeld)
    (hd : m.delayCount = 0) (hr : m.rateCount = 0) (j : Nat) (hj : j ≤ 349) :
    (run (fun _ => P3) (65535 + 1 + j) m).settings = (run (fun _ => P3) 65535 m).settings ∧
    (run (fun _ => P3) (65535 + 1 + j) m).log = (run (fun _ => P3) 65535 m).log ∧
    (run (fun _ => P3) (65535 + 1 + j) m).delayCount = j ∧
    (run (fun _ => P3) (65535 + 1 + j) m).rateCount = 11 + j := by
  obtain ⟨bs, bd, br⟩ := hold_counters m P3 h3 h4 hs hd hr 65535 (by omega)
  have e10 : (if 65535 < 350 then 65535 else (65535 - 350) % 15) = 10 := by decide
  rw [e10] at br
  induction j with
  | zero =>
    rw [Nat.add_zero, run_succ, evaluate_state_held _ _ bs]
    obtain ⟨ws, wl, wd, wr⟩ := button_held_wait_fields (run (fun _ => P3) 65535 m) P3 h3 h4
      (by rw [bd]; left; omega)
    rw [ws, wl, wd, wr, bd, br]
    exact ⟨rfl, rfl, by omega, by omega⟩
  | succ j ih =>
    obtain ⟨js, jl, jd, jr⟩ := ih (by omega)
    have hst : (run (fun _ => P3) (65535 + 1 + j) m).settings.state =
        lampState.buttonHeld := by
      rw [js]; exact bs
    rw [← Nat.add_assoc, run_succ, evaluate_state_held _ _ hst]
    obtain ⟨ws, wl, wd, wr⟩ := button_held_wait_fields
      (run (fun _ => P3) (65535 + 1 + j) m) P3 h3 h4 (by rw [jd]; left; omega)
    rw [ws, wl, wd, wr, jd, jr]
    exact ⟨js, jl, by omega, by omega⟩

/-- The same, by tick number: ticks 65536 .. 65885 of a hold do not repeat. -/
theorem hold_after_overflow_tick (m : Machine) (P3 : Nat)
    (h3 : P3 &&& P3_BTN3__BMASK ≠ P3_BTN3__BMASK)
    (h4 : P3 &&& P3_BTN4__BMASK = P3_BTN4__BMASK)
    (hs : m.settings.state = lampState.buttonHeld)
    (hd : m.delayCount = 0) (hr : m.rateCount = 0) (n : Nat)
    (hlo : 65536 ≤ n) (hhi : n ≤ 65885) :
    (run (fun _ => P3) n m).settings = (run (fun _ => P3) 65535 m).settings ∧
    (run (fun _ => P3) n m).log = (run (fun _ => P3) 65535 m).log ∧
    (run (fun _ => P3) n m).delayCount = n - 65536 ∧
    (run (fun _ => P3) n m).rateCount = n - 65525 := by
  obtain ⟨j, rfl⟩ : ∃ j, n = 65535 + 1 + j := ⟨n - 65536, by omega⟩
  obtain ⟨js, jl, jd, jr⟩ := hold_after_overflow m P3 h3 h4 hs hd hr j (by omega)
  exact ⟨js, jl, jd.trans (by omega), jr.trans (by omega)⟩

/-! ### Level changes -/

/-- Routine `button_pressed` with only the increase button pressed, a channel active. -/
theorem button_pressed_up (m : Machine) (P3 : Nat)
    (hP3 : reads P3 false false false true false) (hch : m.settings.channel ≠ 0) :
    (button_pressed m P3).settings =
      { m.settings with
        state := lampState.buttonHeld
        button := 8
        level := if m.settings.level < 255 then (m.settings.level + 1) % 256
          else m.settings.level } := by
  obtain ⟨a0, a1, a2, a3, a4⟩ := reads_tests hP3
  simp at a0 a1 a2 a3 a4
  by_cases hl : m.settings.level < 255
  · simp [button_pressed, action_settings, a0, a1, a2, a3, a4, hch, hl]
  · simp [button_pressed, action_settings, a0, a1, a2, a3, a4, hch, hl]

/-- Routine `button_pressed` with only the decrease button pressed, a channel active. -/
theorem button_pressed_down (m : Machine) (P3 : Nat)
    (hP3 : reads P3 false false false false true) (hch : m.settings.channel ≠ 0) :
    (button_pressed m P3).settings =
      { m.settings with
        state := lampState.buttonHeld
        button := 8
        level := if m.settings.level > 1 then m.settings.level - 1
          else m.settings.level } := by
  obtain ⟨a0, a1, a2, a3, a4⟩ := reads_tests hP3
  simp at a0 a1 a2 a3 a4
  by_cases hl : m.settings.level > 1
  · simp [button_pressed, action_settings, a0, a1, a2, a3, a4, hch, hl]
  · simp [button_pressed, action_settings, a0, a1, a2, a3, a4, hch, hl]

/-- Routine `button_held` on a tick with typematic repeat of the decrease button. -/
theorem button_held_repeat_down (m : Machine) (P3 : Nat)
    (h3 : P3 &&& P3_BTN3__BMASK = P3_BTN3__BMASK)
    (h4 : P3 &&& P3_BTN4__BMASK ≠ P3_BTN4__BMASK)
    (hd : 350 ≤ (m.delayCount + 1) % 65536) (hr : 15 ≤ (m.rateCount + 1) % 65536) :
    button_held m P3 =
      { action { m with
          delayCount := (m.delayCount + 1) % 65536
          rateCount := (m.rateCount + 1) % 65536
          settings := { m.settings with
            level := if m.settings.level > 1 then m.settings.level - 1
              else m.settings.level } } with
        rateCount := 0 } := by
  have ha : ¬ (P3 &&& P3_BTN_BMASK = P3_BTN_BMASK) := fun h =>
    h4 ((all_released_iff P3).mp h).2.2.2.2
  by_cases hl : m.settings.level > 1
  · simp [button_held, h3, h4, ha, hd, hr, hl]
  · simp [button_held, h3, h4, ha, hd, hr, hl]

/-- The level after `button_held`, for any port reading: the increase branch
is tried first and, when it fires, resets `rateCount`, which keeps the decrease
branch from firing in the same call. -/
theorem button_held_level (m : Machine) (P3 : Nat) :
    (button_held m P3).settings.level =
      if 350 ≤ (m.delayCount + 1) % 65536 ∧ 15 ≤ (m.rateCount + 1) % 65536 then
        if P3 &&& P3_BTN3__BMASK ≠ P3_BTN3__BMASK then
          if m.settings.level < 255 then (m.settings.level + 1) % 256 else m.settings.level
        else if P3 &&& P3_BTN4__BMASK ≠ P3_BTN4__BMASK then
          if m.settings.level > 1 then m.settings.level - 1 else m.settings.level
        else m.settings.level
      else m.settings.level := by
  by_cases ha : P3 &&& P3_BTN_BMASK = P3_BTN_BMASK <;>
  by_cases h3 : P3 &&& P3_BTN3__BMASK = P3_BTN3__BMASK <;>
  by_cases h4 : P3 &&& P3_BTN4__BMASK = P3_BTN4__BMASK <;>
  by_cases hd : 350 ≤ (m.delayCount + 1) % 65536 <;>
  by_cases hr : 15 ≤ (m.rateCount + 1) % 65536 <;>
  by_cases hu : m.settings.level < 255 <;>
  by_cases hl : m.settings.level > 1 <;>
  simp [button_held, ha, h3, h4, hd, hr, hu, hl, action_settings, action_statics]

/-- Routine `button_held` never takes the level out of the range 1..255, whatever the
port reads. -/
theorem button_held_level_bounds (m : Machine) (P3 : Nat)
    (h1 : 1 ≤ m.settings.level) (h255 : m.settings.level ≤ 255) :
    1 ≤ (button_held m P3).settings.level ∧ (button_held m P3).settings.level ≤ 255 := by
  rw [button_held_level]
  split_ifs <;> omega

/-- Routine `button_pressed` with buttons 0, 1 and 2 released keeps the level within
1..255. -/
theorem button_pressed_adjust_bounds (m : Machine) (P3 : Nat)
    (h0 : P3 &&& P3_BTN0__BMASK = P3_BTN0__BMASK)
    (h1 : P3 &&& P3_BTN1__BMASK = P3_BTN1__BMASK)
    (h2 : P3 &&& P3_BTN2__BMASK = P3_BTN2__BMASK)
    (hl : 1 ≤ m.settings.level) (hu : m.settings.level ≤ 255) :
    1 ≤ (button_pressed m P3).settings.level ∧ (button_pressed m P3).settings.level ≤ 255 := by
  by_cases h3 : P3 &&& P3_BTN3__BMASK = P3_BTN3__BMASK <;>
  by_cases h4 : P3 &&& P3_BTN4__BMASK = P3_BTN4__BMASK <;>
  by_cases hc : m.settings.channel = 0 <;>
  by_cases hu' : m.settings.level < 255 <;>
  by_cases hl' : m.settings.level > 1 <;>
  simp [button_pressed, h0, h1, h2, h3, h4, hc, hu', hl', action_settings] <;>
  (try split_ifs) <;> (try dsimp only) <;> omega

/-- Any sequence of increase and decrease steps keeps the level within 1..255. -/
theorem adjust_steps_bounds (steps : List (Bool × Nat)) :
    ∀ m : Machine,
      (∀ st ∈ steps, reads st.2 false false false true false ∨
        reads st.2 false false false false true) →
      1 ≤ m.settings.level → m.settings.level ≤ 255 →
      1 ≤ (adjust_steps steps m).settings.level ∧
        (adjust_steps steps m).settings.level ≤ 255 := by
  induction steps with
  | nil => intro m _ hl hu; exact ⟨hl, hu⟩
  | cons st rest ih =>
    intro m hports hl hu
    obtain ⟨kind, P3⟩ := st
    have hrest : ∀ st ∈ rest, reads st.2 false false false true false ∨
        reads st.2 false false false false true :=
      fun st hst => hports st (List.mem_cons_of_mem _ hst)
    cases kind with
    | true =>
      have hP3 := hports (true, P3) (List.mem_cons_self _ _)
      have hb : 1 ≤ (button_pressed m P3).settings.level ∧
          (button_pressed m P3).settings.level ≤ 255 := by
        rcases hP3 with h | h
        · obtain ⟨a0, a1, a2, _, _⟩ := reads_tests h
          simp at a0 a1 a2
          exact button_pressed_adjust_bounds m P3 a0 a1 a2 hl hu
        · obtain ⟨a0, a1, a2, _, _⟩ := reads_tests h
          simp at a0 a1 a2
          exact button_pressed_adjust_bounds m P3 a0 a1 a2 hl hu
      exact ih (button_pressed m P3) hrest hb.1 hb.2
    | false =>
      have hb := button_held_level_bounds m P3 hl hu
      exact ih (button_held m P3) hrest hb.1 hb.2

/-- Presses of increase at level 255 stay at 255. -/
theorem presses_up_top (P3 : Nat) (hP3 : reads P3 false false false true false) (n : Nat) :
    ∀ m : Machine, m.settings.channel ≠ 0 → m.settings.level = 255 →
      (adjust_steps (List.replicate n (true, P3)) m).settings.level = 255 := by
  induction n with
  | zero => intro m _ hl; exact hl
  | succ n ih =>
    intro m hch hl
    have e := button_pressed_up m P3 hP3 hch
    exact ih (button_pressed m P3) (by rw [e]; exact hch) (by rw [e]; simp [hl])

/-- Presses of decrease at level 1 stay at 1. -/
theorem presses_down_floor (P3 : Nat) (hP3 : reads P3 false false false false true) (n : Nat) :
    ∀ m : Machine, m.settings.channel ≠ 0 → m.settings.level = 1 →
      (adjust_steps (List.replicate n (true, P3)) m).settings.level = 1 := by
  induction n with
  | zero => intro m _ hl; exact hl
  | succ n ih =>
    intro m hch hl
    have e := button_pressed_down m P3 hP3 hch
    exact ih (button_pressed m P3) (by rw [e]; exact hch) (by rw [e]; simp [hl])

/-! ### Level invariant -/

/-- The settings computed by `button_pressed` are its three blocks in sequence,
followed by the transition to `buttonHeld`. -/
theorem button_pressed_blocks (m : Machine) (P3 : Nat) :
    (button_pressed m P3).settings =
      { adjust_block (select_block (toggle_block m.settings P3) P3) P3 with
        state := lampState.buttonHeld } := by
  simp only [button_pressed, action_settings]
  rfl

/-- The button 0 block preserves `level_inv`. -/
theorem toggle_block_inv (s : lampSettings) (P3 : Nat) (h : level_inv s) :
    level_inv (toggle_block s P3) := by
  unfold level_inv at h ⊢
  unfold toggle_block
  by_cases h0 : P3 &&& P3_BTN0__BMASK = P3_BTN0__BMASK <;>
  by_cases ht : s.toggleOn = 0 <;>
  by_cases hb : s.button = 0 <;>
  by_cases hc : s.channel = 1 <;>
  simp [h0, ht, hb, hc] <;> simp [ht] at h <;> omega

/-- The button 1 and 2 blocks leave power and level alone and leave the channel
as it was or set it to Cool or Warm. -/
theorem select_block_fields (s : lampSettings) (P3 : Nat) :
    (select_block s P3).toggleOn = s.toggleOn ∧ (select_block s P3).level = s.level ∧
    ((select_block s P3).channel = s.channel ∨ (select_block s P3).channel = 2 ∨
      (select_block s P3).channel = 4) := by
  unfold select_block
  by_cases h1 : P3 &&& P3_BTN1__BMASK = P3_BTN1__BMASK <;>
  by_cases h2 : P3 &&& P3_BTN2__BMASK = P3_BTN2__BMASK <;>
  simp [h1, h2]

/-- The button 3 and 4 blocks leave power and channel alone. -/
theorem adjust_block_fields (s : lampSettings) (P3 : Nat) :
    (adjust_block s P3).toggleOn = s.toggleOn ∧ (adjust_block s P3).channel = s.channel := by
  simp [adjust_block, apply_ite lampSettings.toggleOn, apply_ite lampSettings.channel,
    apply_ite lampSettings.level]

/-- The button 3 and 4 blocks keep the level within 1..255. -/
theorem adjust_block_level (s : lampSettings) (P3 : Nat)
    (h1 : 1 ≤ s.level) (h2 : s.level ≤ 255) :
    1 ≤ (adjust_block s P3).level ∧ (adjust_block s P3).level ≤ 255 := by
  simp only [adjust_block, apply_ite lampSettings.toggleOn, apply_ite lampSettings.channel,
    apply_ite lampSettings.level, ite_self]
  split_ifs <;> omega

/-- The button 1 and 2 blocks preserve `level_inv`. -/
theorem select_block_inv (s : lampSettings) (P3 : Nat) (h : level_inv s) :
    level_inv (select_block s P3) := by
  obtain ⟨et, el, ec⟩ := select_block_fields s P3
  unfold level_inv at h ⊢
  rw [et, el]
  intro ht
  obtain ⟨h1, h2, h3⟩ := h ht
  refine ⟨h1, h2, ?_⟩
  rcases ec with e | e | e
  · rw [e]; exact h3
  · right; left; exact e
  · right; right; exact e

/-- The button 3 and 4 blocks preserve `level_inv`. -/
theorem adjust_block_inv (s : lampSettings) (P3 : Nat) (h : level_inv s) :
    level_inv (adjust_block s P3) := by
  obtain ⟨et, ec⟩ := adjust_block_fields s P3
  unfold level_inv at h ⊢
  rw [et, ec]
  intro ht
  obtain ⟨h1, h2, h3⟩ := h ht
  exact ⟨(adjust_block_level s P3 h1 h2).1, (adjust_block_level s P3 h1 h2).2, h3⟩

/-- Routine `debounce` changes no field of the settings record but `state`. -/
theorem debounce_fields (m : Machine) :
    (debounce m).settings.button = m.settings.button ∧
    (debounce m).settings.toggleOn = m.settings.toggleOn ∧
    (debounce m).settings.channel = m.settings.channel ∧
    (debounce m).settings.level = m.settings.level ∧
    (debounce m).log = m.log := by
  simp only [debounce]
  split_ifs <;> exact ⟨rfl, rfl, rfl, rfl, rfl⟩

/-- One tick preserves the level invariant. -/
theorem level_inv_step (m : Machine) (P3 : Nat) (h : level_inv m.settings) :
    level_inv (evaluate_state m P3).settings := by
  rcases hst : m.settings.state with _ | _ | _ | _ | _
  · simp only [evaluate_state, hst, idle_state]
    split
    · exact h
    · exact h
  · simp only [evaluate_state, hst]
    obtain ⟨_, et, ec, el, _⟩ := debounce_fields m
    unfold level_inv at h ⊢
    rw [et, ec, el]
    exact h
  · simp only [evaluate_state, hst]
    rw [button_pressed_blocks]
    exact adjust_block_inv _ P3 (select_block_inv _ P3 (toggle_block_inv _ P3 h))
  · simp only [evaluate_state, hst]
    obtain ⟨_, _, _, et, ec⟩ := button_held_frame m P3
    unfold level_inv at h ⊢
    rw [et, ec]
    intro ht
    obtain ⟨h1, h2, h3⟩ := h ht
    exact ⟨(button_held_level_bounds m P3 h1 h2).1,
      (button_held_level_bounds m P3 h1 h2).2, h3⟩
  · simp only [evaluate_state, hst, button_released]
    exact h

/-- The invariant `level_inv` holds in every reachable state. -/
theorem reachable_level_inv (m : Machine) (h : Reachable m) : level_inv m.settings := by
  induction h with
  | init p => intro ht; exact absurd rfl ht
  | tick m P3 _ ih => exact level_inv_step m P3 ih

/-! ### Lookup tables -/

/-- The boolean check `nondecreasing` is sound: a list that passes it is ordered
pairwise. -/
theorem nondecreasing_pairwise : ∀ l : List Nat, nondecreasing l = true →
    List.Pairwise (· ≤ ·) l
  | [], _ => List.Pairwise.nil
  | [_], _ => List.pairwise_singleton _ _
  | a :: b :: rest, h => by
    simp only [nondecreasing, Bool.and_eq_true, decide_eq_true_eq] at h
    have ih := nondecreasing_pairwise (b :: rest) h.2
    refine List.Pairwise.cons ?_ ih
    intro x hx
    rcases List.mem_cons.mp hx with e | e
    · rw [e]; exact h.1
    · exact Nat.le_trans h.1 (List.rel_of_pairwise_cons ih e)

set_option maxRecDepth 100000 in
/-- The warm table passes the check. -/
theorem table0_nondecreasing : nondecreasing brightness_table_channel0 = true := by decide

set_option maxRecDepth 100000 in
/-- The cool table passes the check. -/
theorem table1_nondecreasing : nondecreasing brightness_table_channel1 = true := by decide

set_option maxRecDepth 100000 in
/-- The warm table has 256 entries. -/
theorem table0_length : brightness_table_channel0.length = 256 := by decide

set_option maxRecDepth 100000 in
/-- The cool table has 256 entries. -/
theorem table1_length : brightness_table_channel1.length = 256 := by decide

/-- In a list whose neighbours are in order, later entries are not smaller. -/
theorem lookup_mono (l : List Nat) (h : nondecreasing l = true) (i j : Nat)
    (hij : i ≤ j) (hj : j < l.length) :
    ∃ a b, l[i]? = some a ∧ l[j]? = some b ∧ a ≤ b := by
  have hp : List.Pairwise (· ≤ ·) l := nondecreasing_pairwise l h
  have hi : i < l.length := by omega
  refine ⟨l[i], l[j], List.getElem?_eq_getElem hi, List.getElem?_eq_getElem hj, ?_⟩
  rcases Nat.eq_or_lt_of_le hij with e | e
  · subst e; exact Nat.le_refl _
  · exact List.pairwise_iff_getElem.mp hp i j hi hj e

set_option maxRecDepth 100000 in
/-- No entry of the warm table exceeds 4095. -/
theorem table0_bound : brightness_table_channel0.all (fun x => decide (x ≤ 4095)) = true := by
  decide

set_option maxRecDepth 100000 in
/-- No entry of the cool table exceeds 2395. -/
theorem table1_bound : brightness_table_channel1.all (fun x => decide (x ≤ 2395)) = true := by
  decide

set_option maxRecDepth 100000 in
/-- Last entries of the two tables. -/
theorem tables_top :
    brightness_table_channel0[255]? = some 4095 ∧
    brightness_table_channel1[255]? = some 2395 := by
  decide

/-- A lookup below the length succeeds and gives an entry of the list. -/
theorem lookup_some (l : List Nat) (i : Nat) (hi : i < l.length) :
    ∃ t, l[i]? = some t ∧ t ∈ l :=
  ⟨l[i], List.getElem?_eq_getElem hi, List.getElem_mem hi⟩

/-- What `brightness_set` returns comes from the warm table at its first
argument and from the cool table at its second argument. -/
theorem brightness_set_some (a b t0 t1 : Nat)
    (h0 : brightness_table_channel0[a]? = some t0)
    (h1 : brightness_table_channel1[b]? = some t1) :
    brightness_set a b = some (t0, t1) := by
  unfold brightness_set
  rw [h0, h1]

/-- Conversely, a result of `brightness_set` determines the two lookups. -/
theorem brightness_set_lookups (a b t0 t1 : Nat) (h : brightness_set a b = some (t0, t1)) :
    brightness_table_channel0[a]? = some t0 ∧ brightness_table_channel1[b]? = some t1 := by
  unfold brightness_set at h
  split at h
  · next x y hx hy =>
    rw [hx, hy]
    simp only [Option.some.injEq, Prod.mk.injEq] at h
    exact ⟨congrArg some h.1, congrArg some h.2⟩
  · exact absurd h (by simp)

/-- Clearing bit 4 of the port latch leaves bit 4 at zero. -/
theorem indicator_off (x : Nat) : (x &&& (0xFF ^^^ P1_B4__BMASK)) &&& P1_B4__BMASK = 0 := by
  rw [Nat.and_assoc]
  have : (0xFF ^^^ P1_B4__BMASK) &&& P1_B4__BMASK = 0 := by decide
  rw [this, Nat.and_zero]

/-! ### Registers, modes and holds -/

/-- Masking a byte with the complement of a byte mask clears the field of that
mask. -/
theorem field_cleared (x F : Nat) (hF : F ≤ 255) : (x &&& (0xFF ^^^ F)) &&& F = 0 := by
  apply Nat.eq_of_testBit_eq
  intro i
  simp only [Nat.testBit_and, Nat.testBit_xor, Nat.zero_testBit]
  cases hb : F.testBit i with
  | false => simp
  | true =>
    have h1 : 2 ^ i ≤ F := Nat.testBit_implies_ge hb
    have h2 : i < 8 := by
      by_contra hge
      have : 2 ^ 8 ≤ 2 ^ i := Nat.pow_le_pow_right (by decide) (by omega)
      omega
    have h3 : (255 : Nat).testBit i = true := by
      have := Nat.testBit_two_pow_sub_one 8 i
      simpa [h2] using this
    simp [h3]

/-- Once the field is cleared, or-ing a value that lies inside the field leaves
exactly that value in the field. -/
theorem field_set (x F C : Nat) (hF : F ≤ 255) (hC : C &&& F = C) :
    ((x &&& (0xFF ^^^ F)) ||| C) &&& F = C := by
  rw [Nat.and_distrib_right, field_cleared x F hF, hC, Nat.zero_or]

/-- The log after `action`: the call itself, then the calls of
`brightness_set` given by `action_calls`. -/
theorem action_log (m : Machine) :
    (action m).log = m.log ++ Event.actionCall ::
      action_calls m.settings.button m.settings.toggleOn m.settings.channel
        m.settings.level := by
  unfold action_calls
  by_cases h0 : m.settings.button = 0
  · by_cases ht : m.settings.toggleOn = 0
    · rw [action_off m h0 ht]; simp [h0, ht]
    · rw [action_none_powered m h0 ht]; simp [h0, ht]
  by_cases h1 : m.settings.button = 1
  · by_cases ht : m.settings.toggleOn = 0
    · rw [action_both_unpowered m h1 ht]; simp [h1, ht]
    · rw [action_both_on m h1 ht]; simp [h1, ht]
  by_cases h2 : m.settings.button = 2
  · rw [action_cool m h2]; simp [h2]
  by_cases h4 : m.settings.button = 4
  · rw [action_warm m h4]; simp [h4]
  by_cases h8 : m.settings.button = 8
  · by_cases c1 : m.settings.channel = 1
    · rw [action_adjust_both m h8 c1]; simp [h8, c1]
    by_cases c2 : m.settings.channel = 2
    · rw [action_adjust_cool m h8 c2]; simp [h8, c2]
    by_cases c4 : m.settings.channel = 4
    · rw [action_adjust_warm m h8 c4]; simp [h8, c4]
    rw [action_adjust_none m h8 c1 c2 c4]; simp [h8, c1, c2, c4]
  rw [action_other m h0 h1 h2 h4 h8]; simp [h0, h1, h2, h4, h8]

/-- State after `debounce`, called in state `debouncing`. -/
theorem debounce_state (m : Machine) (hs : m.settings.state = lampState.debouncing) :
    (debounce m).settings.state = lampState.debouncing ∨
    (debounce m).settings.state = lampState.buttonPressed := by
  simp only [debounce, hs]
  split_ifs <;> simp_all

/-- State after `button_held`: unchanged, or `buttonReleased` when all buttons
read released. -/
theorem button_held_state (m : Machine) (P3 : Nat) :
    (button_held m P3).settings.state =
      if P3 &&& P3_BTN_BMASK = P3_BTN_BMASK then lampState.buttonReleased
      else m.settings.state := by
  simp [button_held, apply_ite Machine.settings, apply_ite lampSettings.state,
    apply_ite Machine.delayCount, apply_ite Machine.rateCount, action_settings, action_statics]

/-- Routine `button_pressed` with buttons 0, 1 and 2 released and no channel
active: only the state changes. -/
theorem button_pressed_no_channel (m : Machine) (P3 : Nat)
    (h0 : P3 &&& P3_BTN0__BMASK = P3_BTN0__BMASK)
    (h1 : P3 &&& P3_BTN1__BMASK = P3_BTN1__BMASK)
    (h2 : P3 &&& P3_BTN2__BMASK = P3_BTN2__BMASK)
    (hch : m.settings.channel = 0) :
    (button_pressed m P3).settings = { m.settings with state := lampState.buttonHeld } := by
  simp [button_pressed, action_settings, h0, h1, h2, hch]

/-- Routine `button_held` always steps `delayCount`, unless it resets it on
release. -/
theorem button_held_delay (m : Machine) (P3 : Nat) :
    (button_held m P3).delayCount =
      if P3 &&& P3_BTN_BMASK = P3_BTN_BMASK then 0 else (m.delayCount + 1) % 65536 := by
  simp [button_held, apply_ite Machine.settings, apply_ite Machine.delayCount,
    apply_ite Machine.rateCount, action_settings, action_statics]

/-- Routine `debounce` leaves the counters of `button_held` alone. -/
theorem debounce_counters (m : Machine) :
    (debounce m).delayCount = m.delayCount ∧ (debounce m).rateCount = m.rateCount := by
  simp only [debounce]
  split_ifs <;> exact ⟨rfl, rfl⟩

/-- One tick preserves `hold_inv`. -/
theorem hold_inv_step (m : Machine) (P3 : Nat) (h : hold_inv m) :
    hold_inv (evaluate_state m P3) := by
  unfold hold_inv at h ⊢
  rcases hst : m.settings.state with _ | _ | _ | _ | _
  · have hc := h (by rw [hst]; decide)
    simp only [evaluate_state, hst, idle_state]
    split <;> exact fun _ => hc
  · have hc := h (by rw [hst]; decide)
    have e : evaluate_state m P3 = debounce m := by simp [evaluate_state, hst]
    rw [e, (debounce_counters m).1, (debounce_counters m).2]
    exact fun _ => hc
  · intro hne
    exact absurd (by simp only [evaluate_state, hst]; exact (button_pressed_frame m P3).2.2.2.2) hne
  · have e : evaluate_state m P3 = button_held m P3 := by simp [evaluate_state, hst]
    rw [e]
    by_cases ha : P3 &&& P3_BTN_BMASK = P3_BTN_BMASK
    · intro _
      have hp : ¬ pressed P3 P3_BTN_BMASK := by unfold pressed; exact not_not.mpr ha
      rw [button_held_released m P3 hp]
      exact ⟨rfl, rfl⟩
    · intro hne
      rw [button_held_state, if_neg ha] at hne
      exact absurd hst hne
  · have hc := h (by rw [hst]; decide)
    simp only [evaluate_state, hst, button_released]
    exact fun _ => hc

/-- The invariant `hold_inv` holds in every reachable state. -/
theorem reachable_hold_inv (m : Machine) (h : Reachable m) : hold_inv m := by
  induction h with
  | init p => intro _; exact ⟨rfl, rfl⟩
  | tick m P3 _ ih => exact hold_inv_step m P3 ih

/-- After the button 0 block, with button 0 pressed, the record is in mode
Both (on) or None (off), with `channel = button`. -/
theorem toggle_block_pressed (s : lampSettings) (P3 : Nat)
    (h0 : P3 &&& P3_BTN0__BMASK ≠ P3_BTN0__BMASK) :
    ((toggle_block s P3).button = 1 ∧ (toggle_block s P3).channel = 1 ∧
      (toggle_block s P3).toggleOn ≠ 0) ∨
    ((toggle_block s P3).button = 0 ∧ (toggle_block s P3).channel = 0 ∧
      (toggle_block s P3).toggleOn = 0) := by
  unfold toggle_block
  by_cases ht : s.toggleOn = 0 <;>
  by_cases hb : s.button = 0 <;>
  by_cases hc : s.channel = 1 <;>
  simp [h0, ht, hb, hc]

/-- With button 0 released the button 0 block does nothing. -/
theorem toggle_block_released (s : lampSettings) (P3 : Nat)
    (h0 : P3 &&& P3_BTN0__BMASK = P3_BTN0__BMASK) : toggle_block s P3 = s := by
  simp [toggle_block, h0]

/-- The button 0 block preserves `mode_inv`. -/
theorem toggle_block_mode (s : lampSettings) (P3 : Nat) (h : mode_inv s) :
    mode_inv (toggle_block s P3) := by
  by_cases h0 : P3 &&& P3_BTN0__BMASK = P3_BTN0__BMASK
  · rw [toggle_block_released s P3 h0]; exact h
  · rcases toggle_block_pressed s P3 h0 with h1 | h1
    · right; left; exact h1
    · left; exact h1

/-- The button 1 and 2 blocks: untouched record, or `button = channel` Cool or
Warm. -/
theorem select_block_cases (s : lampSettings) (P3 : Nat) :
    (P3 &&& P3_BTN1__BMASK = P3_BTN1__BMASK ∧ P3 &&& P3_BTN2__BMASK = P3_BTN2__BMASK ∧
      select_block s P3 = s) ∨
    ((P3 &&& P3_BTN1__BMASK ≠ P3_BTN1__BMASK ∨ P3 &&& P3_BTN2__BMASK ≠ P3_BTN2__BMASK) ∧
      (((select_block s P3).button = 2 ∧ (select_block s P3).channel = 2) ∨
       ((select_block s P3).button = 4 ∧ (select_block s P3).channel = 4))) := by
  unfold select_block
  by_cases h1 : P3 &&& P3_BTN1__BMASK = P3_BTN1__BMASK <;>
  by_cases h2 : P3 &&& P3_BTN2__BMASK = P3_BTN2__BMASK <;>
  simp [h1, h2]

/-- The button 1 and 2 blocks preserve `mode_inv`. -/
theorem select_block_mode (s : lampSettings) (P3 : Nat) (h : mode_inv s) :
    mode_inv (select_block s P3) := by
  rcases select_block_cases s P3 with ⟨_, _, e⟩ | ⟨_, h2 | h4⟩
  · rw [e]; exact h
  · right; right; left; exact h2
  · right; right; right; left; exact h4

/-- The button 3 and 4 blocks: the button code is untouched or becomes Adjust,
and it becomes Adjust only when a channel is active. -/
theorem adjust_block_button (s : lampSettings) (P3 : Nat) :
    (adjust_block s P3).button = s.button ∨
    ((adjust_block s P3).button = 8 ∧ s.channel ≠ 0) := by
  unfold adjust_block
  by_cases h3 : P3 &&& P3_BTN3__BMASK = P3_BTN3__BMASK <;>
  by_cases h4 : P3 &&& P3_BTN4__BMASK = P3_BTN4__BMASK <;>
  by_cases hc : s.channel = 0 <;>
  simp [h3, h4, hc, apply_ite lampSettings.button, apply_ite lampSettings.channel,
    apply_ite lampSettings.level]

/-- The button 3 and 4 blocks preserve `mode_inv`. -/
theorem adjust_block_mode (s : lampSettings) (P3 : Nat) (h : mode_inv s) :
    mode_inv (adjust_block s P3) := by
  obtain ⟨et, ec⟩ := adjust_block_fields s P3
  unfold mode_inv at h ⊢
  rw [et, ec]
  rcases adjust_block_button s P3 with e | ⟨e, hc⟩
  · rw [e]; exact h
  · rw [e]
    right; right; right; right
    refine ⟨rfl, ?_⟩
    rcases h with h | h | h | h | h
    · exact absurd h.2.1 hc
    · left; exact h.2.1
    · right; left; exact h.2
    · right; right; exact h.2
    · exact h.2

/-- The settings after `button_pressed` are in one of the five modes. -/
theorem button_pressed_mode (m : Machine) (P3 : Nat) (h : mode_inv m.settings) :
    mode_inv (adjust_block (select_block (toggle_block m.settings P3) P3) P3) :=
  adjust_block_mode _ P3 (select_block_mode _ P3 (toggle_block_mode _ P3 h))

/-- Changing `state` or `level` does not leave the mode. -/
theorem mode_inv_of_fields (s s' : lampSettings) (hb : s'.button = s.button)
    (hc : s'.channel = s.channel) (ht : s'.toggleOn = s.toggleOn) (h : mode_inv s) :
    mode_inv s' := by
  unfold mode_inv at h ⊢
  rw [hb, hc, ht]
  exact h

/-- One tick preserves `mode_inv`. -/
theorem mode_inv_step (m : Machine) (P3 : Nat) (h : mode_inv m.settings) :
    mode_inv (evaluate_state m P3).settings := by
  rcases hst : m.settings.state with _ | _ | _ | _ | _
  · simp only [evaluate_state, hst, idle_state]
    split
    · exact mode_inv_of_fields m.settings _ rfl rfl rfl h
    · exact h
  · have e : evaluate_state m P3 = debounce m := by simp [evaluate_state, hst]
    obtain ⟨fb, ft, fc, _, _⟩ := debounce_fields m
    rw [e]
    exact mode_inv_of_fields m.settings _ fb fc ft h
  · have e : evaluate_state m P3 = button_pressed m P3 := by simp [evaluate_state, hst]
    rw [e, button_pressed_blocks]
    exact mode_inv_of_fields _ _ rfl rfl rfl (button_pressed_mode m P3 h)
  · have e : evaluate_state m P3 = button_held m P3 := by simp [evaluate_state, hst]
    obtain ⟨_, _, fb, ft, fc⟩ := button_held_frame m P3
    rw [e]
    exact mode_inv_of_fields m.settings _ fb fc ft h
  · simp only [evaluate_state, hst, button_released]
    exact mode_inv_of_fields m.settings _ rfl rfl rfl h

/-- The invariant `mode_inv` holds in every reachable state. -/
theorem reachable_mode_inv (m : Machine) (h : Reachable m) : mode_inv m.settings := by
  induction h with
  | init p => left; exact ⟨rfl, rfl, rfl⟩
  | tick m P3 _ ih => exact mode_inv_step m P3 ih

/-- In each of the five modes `action` calls `brightness_set` exactly once. -/
theorem action_calls_mode (s : lampSettings) (h : mode_inv s) :
    ∃ a b, action_calls s.button s.toggleOn s.channel s.level =
      [Event.brightnessSet a b] := by
  unfold action_calls
  rcases h with ⟨hb, _, ht⟩ | ⟨hb, _, ht⟩ | ⟨hb, _⟩ | ⟨hb, _⟩ | ⟨hb, hc | hc | hc⟩
  · exact ⟨s.level, s.level, by simp [hb, ht]⟩
  · exact ⟨s.level, s.level, by simp [hb, ht]⟩
  · exact ⟨0, s.level, by simp [hb]⟩
  · exact ⟨s.level, 0, by simp [hb]⟩
  · exact ⟨s.level, s.level, by simp [hb, hc]⟩
  · exact ⟨0, s.level, by simp [hb, hc]⟩
  · exact ⟨s.level, 0, by simp [hb, hc]⟩

/-- The calls of `brightness_set` that `action` makes: none or one. -/
theorem action_calls_shape (button toggleOn channel level : Nat) :
    action_calls button toggleOn channel level = [] ∨
    ∃ a b, action_calls button toggleOn channel level = [Event.brightnessSet a b] := by
  unfold action_calls
  by_cases h1 : button = 1
  · by_cases ht : toggleOn = 0 <;> simp [h1, ht]
  by_cases h0 : button = 0
  · by_cases ht : toggleOn = 0 <;> simp [h0, ht]
  by_cases h2 : button = 2
  · simp [h2]
  by_cases h4 : button = 4
  · simp [h4]
  by_cases h8 : button = 8
  · by_cases c1 : channel = 1
    · simp [h8, c1]
    by_cases c2 : channel = 2
    · simp [h8, c2]
    by_cases c4 : channel = 4
    · simp [h8, c4]
    simp [h8, c1, c2, c4]
  simp [h1, h0, h2, h4, h8]

/-- For every record `action` calls `brightness_set` at most once. -/
theorem action_calls_length (button toggleOn channel level : Nat) :
    (action_calls button toggleOn channel level).length ≤ 1 ∧
    ∀ e ∈ action_calls button toggleOn channel level, e ≠ Event.actionCall := by
  rcases action_calls_shape button toggleOn channel level with h | ⟨a, b, h⟩
  · rw [h]; simp
  · rw [h]; simp

/-- The log after `button_held`, for any port reading: on a repeat tick with
button 3 or 4 pressed one call of `action` on the record with the new level,
otherwise nothing. -/
theorem button_held_log (m : Machine) (P3 : Nat) :
    (button_held m P3).log =
      if (350 ≤ (m.delayCount + 1) % 65536 ∧ 15 ≤ (m.rateCount + 1) % 65536) ∧
          (P3 &&& P3_BTN3__BMASK ≠ P3_BTN3__BMASK ∨
            P3 &&& P3_BTN4__BMASK ≠ P3_BTN4__BMASK) then
        m.log ++ Event.actionCall ::
          action_calls m.settings.button m.settings.toggleOn m.settings.channel
            (button_held m P3).settings.level
      else m.log := by
  rw [button_held_level]
  by_cases ha : P3 &&& P3_BTN_BMASK = P3_BTN_BMASK <;>
  by_cases h3 : P3 &&& P3_BTN3__BMASK = P3_BTN3__BMASK <;>
  by_cases h4 : P3 &&& P3_BTN4__BMASK = P3_BTN4__BMASK <;>
  by_cases hd : 350 ≤ (m.delayCount + 1) % 65536 <;>
  by_cases hr : 15 ≤ (m.rateCount + 1) % 65536 <;>
  by_cases hu : m.settings.level < 255 <;>
  by_cases hl : m.settings.level > 1 <;>
  simp [button_held, ha, h3, h4, hd, hr, hu, hl, action_settings, action_statics, action_log]

/-- The log after `button_pressed`: that of `action`, called on the record
produced by the three blocks. -/
theorem button_pressed_log (m : Machine) (P3 : Nat) :
    (button_pressed m P3).log =
      (action { m with
        settings := adjust_block (select_block (toggle_block m.settings P3) P3) P3 }).log := by
  simp only [button_pressed]
  rfl

/-- A call of `action` adds exactly one `actionCall` to the log. -/
theorem action_count (m : Machine) :
    List.count Event.actionCall (action m).log = List.count Event.actionCall m.log + 1 := by
  rw [action_log, List.count_append, List.count_cons_self,
    List.count_eq_zero.mpr (fun h => (action_calls_length _ _ _ _).2 _ h rfl)]

/-- In a mode of `mode_inv`, `action` logs itself and one call of
`brightness_set`. -/
theorem action_log_mode (m : Machine) (h : mode_inv m.settings) :
    ∃ a b, (action m).log = m.log ++ [Event.actionCall, Event.brightnessSet a b] := by
  obtain ⟨a, b, e⟩ := action_calls_mode m.settings h
  exact ⟨a, b, by rw [action_log, e]⟩

/-- One tick from a state that satisfies `mode_inv` logs nothing, or one call
of `action` with one call of `brightness_set`. -/
theorem tick_log (m : Machine) (P3 : Nat) (h : mode_inv m.settings) :
    (evaluate_state m P3).log = m.log ∨
    ∃ a b, (evaluate_state m P3).log =
      m.log ++ [Event.actionCall, Event.brightnessSet a b] := by
  rcases hst : m.settings.state with _ | _ | _ | _ | _
  · left
    simp only [evaluate_state, hst, idle_state]
    split <;> rfl
  · left
    have e : evaluate_state m P3 = debounce m := by simp [evaluate_state, hst]
    rw [e]
    exact (debounce_fields m).2.2.2.2
  · right
    have e : evaluate_state m P3 = button_pressed m P3 := by simp [evaluate_state, hst]
    rw [e, button_pressed_log]
    exact action_log_mode _ (button_pressed_mode m P3 h)
  · have e : evaluate_state m P3 = button_held m P3 := by simp [evaluate_state, hst]
    rw [e, button_held_log]
    split
    · right
      have h' : mode_inv { m.settings with level := (button_held m P3).settings.level } :=
        mode_inv_of_fields m.settings _ rfl rfl rfl h
      obtain ⟨a, b, e⟩ := action_calls_mode _ h'
      exact ⟨a, b, by rw [← e]⟩
    · left; rfl
  · left
    simp only [evaluate_state, hst, button_released]

/-- Routine `button_held` on a repeat tick with buttons 3 and 4 both pressed: only
the increase branch runs. -/
theorem button_held_both_repeat (m : Machine) (P3 : Nat)
    (h3 : P3 &&& P3_BTN3__BMASK ≠ P3_BTN3__BMASK)
    (h4 : P3 &&& P3_BTN4__BMASK ≠ P3_BTN4__BMASK)
    (hd : 350 ≤ (m.delayCount + 1) % 65536) (hr : 15 ≤ (m.rateCount + 1) % 65536) :
    button_held m P3 =
      { action { m with
          delayCount := (m.delayCount + 1) % 65536
          rateCount := (m.rateCount + 1) % 65536
          settings := { m.settings with
            level := if m.settings.level < 255 then (m.settings.level + 1) % 256
              else m.settings.level } } with
        rateCount := 0 } := by
  have ha : ¬ (P3 &&& P3_BTN_BMASK = P3_BTN_BMASK) := fun h =>
    h3 ((all_released_iff P3).mp h).2.2.2.1
  by_cases hl : m.settings.level < 255
  · simp [button_held, h3, h4, ha, hd, hr, hl, action_statics]
  · simp [button_held, h3, h4, ha, hd, hr, hl, action_statics]

/-- Routine `button_held` on a tick without repeat and with some button pressed:
only the counters move. -/
theorem button_held_idle_tick (m : Machine) (P3 : Nat)
    (ha : P3 &&& P3_BTN_BMASK ≠ P3_BTN_BMASK)
    (hw : ¬ (350 ≤ (m.delayCount + 1) % 65536 ∧ 15 ≤ (m.rateCount + 1) % 65536)) :
    button_held m P3 =
      { m with
        delayCount := (m.delayCount + 1) % 65536
        rateCount := (m.rateCount + 1) % 65536 } := by
  by_cases hd : 350 ≤ (m.delayCount + 1) % 65536
  · have hr : ¬ (15 ≤ (m.rateCount + 1) % 65536) := fun h => hw ⟨hd, h⟩
    simp [button_held, ha, hd, hr]
  · simp [button_held, ha, hd]

/-- With button 3 pressed the level never goes down in `button_held`. -/
theorem button_held_level_mono (m : Machine) (P3 : Nat)
    (h3 : P3 &&& P3_BTN3__BMASK ≠ P3_BTN3__BMASK) :
    m.settings.level ≤ (button_held m P3).settings.level := by
  rw [button_held_level]
  simp only [h3, ne_eq, not_false_eq_true, if_true]
  split_ifs <;> omega

/-- Routine `button_held` with buttons 3 and 4 released and some other button
pressed: only the counters move. -/
theorem button_held_no_adjust (m : Machine) (P3 : Nat)
    (ha : P3 &&& P3_BTN_BMASK ≠ P3_BTN_BMASK)
    (h3 : P3 &&& P3_BTN3__BMASK = P3_BTN3__BMASK)
    (h4 : P3 &&& P3_BTN4__BMASK = P3_BTN4__BMASK) :
    button_held m P3 =
      { m with
        delayCount := (m.delayCount + 1) % 65536
        rateCount := (m.rateCount + 1) % 65536 } := by
  simp [button_held, ha, h3, h4]

/-- First tick of a press: `idle_state` moves to `debouncing`. -/
theorem idle_press (m : Machine) (port : Nat → Nat)
    (hs : m.settings.state = lampState.idle) (hpress : pressed (port 0) P3_BTN_BMASK) :
    run port 1 m = { m with settings := { m.settings with state := lampState.debouncing } } := by
  unfold pressed at hpress
  simp [run, evaluate_state, hs, idle_state, hpress]

/-- Routine `button_pressed` with only button 0 pressed applies the button 0 block
and nothing else. -/
theorem button_pressed_only0 (m : Machine) (P3 : Nat)
    (hP3 : reads P3 true false false false false) :
    (button_pressed m P3).settings =
      { toggle_block m.settings P3 with state := lampState.buttonHeld } := by
  obtain ⟨_, a1, a2, a3, a4⟩ := reads_tests hP3
  simp at a1 a2 a3 a4
  rw [button_pressed_blocks]
  simp [select_block, adjust_block, a1, a2, a3, a4]

/-- A reading with button 0 pressed passes the any-button test. -/
theorem reads0_pressed {P3 : Nat} {b1 b2 b3 b4 : Bool} (h : reads P3 true b1 b2 b3 b4) :
    pressed P3 P3_BTN_BMASK := by
  obtain ⟨a0, _, _, _, _⟩ := reads_tests h
  simp at a0
  unfold pressed
  exact fun h => a0 ((all_released_iff P3).mp h).1

/-- The machine while button 0 alone is held from `idle`: settings and log are
untouched during the first twelve ticks (one in `idle`, eleven in
`debouncing`); tick 13 runs `button_pressed`; from then on the machine sits in
`buttonHeld` with settings and log frozen. -/
theorem hold_from_idle (m : Machine) (port : Nat → Nat)
    (hs : m.settings.state = lampState.idle) (hp : m.prevState = lampState.idle)
    (hport : ∀ i, reads (port i) true false false false false) :
    (∀ n, 1 ≤ n → n ≤ 11 →
      (run port n m).settings = { m.settings with state := lampState.debouncing } ∧
      (run port n m).log = m.log) ∧
    ((run port 12 m).settings = { m.settings with state := lampState.buttonPressed } ∧
      (run port 12 m).log = m.log) ∧
    run port 13 m = button_pressed (run port 12 m) (port 12) ∧
    (∀ n, 13 ≤ n →
      (run port n m).settings = (run port 13 m).settings ∧
      (run port n m).log = (run port 13 m).log) ∧
    (run port 13 m).settings.state = lampState.buttonHeld := by
  have hpress : pressed (port 0) P3_BTN_BMASK := reads0_pressed (hport 0)
  have h12 := debounce_window_end m port hs hp hpress
  have e13 : run port 13 m = button_pressed (run port 12 m) (port 12) := by
    rw [run_succ, h12]
    simp [evaluate_state]
  have h13 : (run port 13 m).settings.state = lampState.buttonHeld := by
    rw [e13]
    exact (button_pressed_frame _ _).2.2.2.2
  refine ⟨?_, ?_, e13, ?_, h13⟩
  · intro n h1 h11
    rcases Nat.eq_or_lt_of_le h1 with e | e
    · rw [← e, idle_press m port hs hpress]
      exact ⟨rfl, rfl⟩
    · obtain ⟨k, rfl⟩ : ∃ k, n = k + 2 := ⟨n - 2, by omega⟩
      rw [debounce_window m port hs hp hpress k (by omega)]
      exact ⟨rfl, rfl⟩
  · rw [h12]
    exact ⟨rfl, rfl⟩
  · intro n hn
    obtain ⟨j, rfl⟩ : ∃ j, n = 13 + j := ⟨n - 13, by omega⟩
    induction j with
    | zero => exact ⟨rfl, rfl⟩
    | succ j ih =>
      obtain ⟨is, il⟩ := ih (by omega)
      have hst : (run port (13 + j) m).settings.state = lampState.buttonHeld := by
        rw [is]; exact h13
      obtain ⟨a0, _, _, a3, a4⟩ := reads_tests (hport (13 + j))
      simp at a0 a3 a4
      have ha : port (13 + j) &&& P3_BTN_BMASK ≠ P3_BTN_BMASK :=
        fun h => a0 ((all_released_iff _).mp h).1
      rw [← Nat.add_assoc, run_succ, evaluate_state_held _ _ hst,
        button_held_no_adjust _ _ ha a3 a4]
      exact ⟨is, il⟩

/-- While button 0 alone is held from `idle`, the machine is in `buttonPressed`
at the start of tick 13 and of no other tick. -/
theorem hold_from_idle_pressed (m : Machine) (port : Nat → Nat)
    (hs : m.settings.state = lampState.idle) (hp : m.prevState = lampState.idle)
    (hport : ∀ i, reads (port i) true false false false false) (n : Nat) :
    (run port n m).settings.state = lampState.buttonPressed ↔ n = 12 := by
  obtain ⟨hdeb, h12, _, hheld, h13⟩ := hold_from_idle m port hs hp hport
  by_cases c0 : n = 0
  · subst c0
    show m.settings.state = _ ↔ _
    rw [hs]
    simp
  by_cases c1 : n ≤ 11
  · rw [(hdeb n (by omega) c1).1]
    simp
    omega
  by_cases c2 : n = 12
  · subst c2
    rw [h12.1]
    simp
  · rw [(hheld n (by omega)).1, h13]
    simp
    exact c2

/-- The button 0 block neither reads nor writes `state`. -/
theorem toggle_block_state (s : lampSettings) (P3 : Nat) (st st' : lampState) :
    { toggle_block { s with state := st } P3 with state := st' } =
      { toggle_block s P3 with state := st' } := by
  unfold toggle_block
  by_cases h0 : P3 &&& P3_BTN0__BMASK = P3_BTN0__BMASK <;>
  by_cases ht : s.toggleOn = 0 <;>
  by_cases hb : s.button = 0 <;>
  by_cases hc : s.channel = 1 <;>
  simp [h0, ht, hb, hc]

/-! ## C1: toggle sequence -/

/-- C1: from a lamp that is off (power off, channel None, button None; any
level, in particular 0), `button_pressed` with only button 0 reading pressed
gives power on, level 180, channel Both and button Both; a second
`button_pressed` with only button 0 reading pressed on that result gives power
off, level 0, channel None. -/
theorem toggle_sequence (m : Machine) (P3 P3' : Nat)
    (hpow : m.settings.toggleOn = 0) (hch : m.settings.channel = 0)
    (hbtn : m.settings.button = 0)
    (hP3 : reads P3 true false false false false)
    (hP3' : reads P3' true false false false false) :
    (button_pressed m P3).settings.toggleOn = 1 ∧
    (button_pressed m P3).settings.level = 180 ∧
    (button_pressed m P3).settings.channel = 1 ∧
    (button_pressed m P3).settings.button = 1 ∧
    (button_pressed (button_pressed m P3) P3').settings.toggleOn = 0 ∧
    (button_pressed (button_pressed m P3) P3').settings.level = 0 ∧
    (button_pressed (button_pressed m P3) P3').settings.channel = 0 := by
  obtain ⟨a0, a1, a2, a3, a4⟩ := reads_tests hP3
  obtain ⟨b0, b1, b2, b3, b4⟩ := reads_tests hP3'
  simp at a0 a1 a2 a3 a4 b0 b1 b2 b3 b4
  simp [button_pressed, action_settings, *]

/-- The toggle sequence on the initial machine, which has level 0. -/
theorem toggle_sequence_witness :
    (main_init 0xFF).settings.level = 0 ∧
    reads P3_only0 true false false false false ∧
    (button_pressed (main_init 0xFF) P3_only0).settings.toggleOn = 1 ∧
    (button_pressed (main_init 0xFF) P3_only0).settings.level = 180 ∧
    (button_pressed (main_init 0xFF) P3_only0).settings.channel = 1 ∧
    (button_pressed (main_init 0xFF) P3_only0).settings.button = 1 ∧
    (button_pressed (button_pressed (main_init 0xFF) P3_only0) P3_only0).settings.toggleOn = 0 ∧
    (button_pressed (button_pressed (main_init 0xFF) P3_only0) P3_only0).settings.level = 0 ∧
    (button_pressed (button_pressed (main_init 0xFF) P3_only0) P3_only0).settings.channel = 0 :=
  ⟨rfl, by decide,
    toggle_sequence (main_init 0xFF) P3_only0 P3_only0 rfl rfl rfl (by decide) (by decide)⟩

/-! ## C2: single channel, then toggle -/

/-- C2 fails on the code, against the code's own comments.  The machine
`lamp_cool_unpowered` is reached from the initial state by pressing cool-only,
increase, cool-only: its channel and button are CoolOnly, its level is 1 and
the last call made was `brightness_set(0, 1)`, so the cool channel is lit; but
`toggleOn` is still 0, because the button 1 and button 2 blocks (source lines
355-364) never set it.  With only button 0 pressed, the test of source line
339 (`toggleOn && channel != 0x01`, commented "If one channel is on, turn both
on") fails and the `else` branch commented "If both channels are already on,
turn off" runs: channel None, level 0, power off, instead of channel Both with
level 1 kept. -/
theorem single_channel_toggle_unpowered :
    lamp_cool_unpowered.settings.channel = 2 ∧
    lamp_cool_unpowered.settings.button = 2 ∧
    lamp_cool_unpowered.settings.level = 1 ∧
    lamp_cool_unpowered.settings.toggleOn = 0 ∧
    lamp_cool_unpowered.log.getLast? = some (Event.brightnessSet 0 1) ∧
    reads P3_only0 true false false false false ∧
    (button_pressed lamp_cool_unpowered P3_only0).settings.channel = 0 ∧
    (button_pressed lamp_cool_unpowered P3_only0).settings.level = 0 ∧
    (button_pressed lamp_cool_unpowered P3_only0).settings.toggleOn = 0 := by
  decide

/-- Where the code does what C2 says: when `toggleOn` happens to be set (the
single channel was selected after the lamp had been switched on with button
0), `button_pressed` with only button 0 reading pressed gives channel Both (and
button Both) with the level kept. -/
theorem single_channel_toggle (L : Nat) (m : Machine) (P3 : Nat)
    (hpow : m.settings.toggleOn ≠ 0)
    (hch : m.settings.channel = 2) (hbtn : m.settings.button = 2)
    (hlev : m.settings.level = L)
    (hP3 : reads P3 true false false false false) :
    (button_pressed m P3).settings.channel = 1 ∧
    (button_pressed m P3).settings.button = 1 ∧
    (button_pressed m P3).settings.level = L ∧
    (button_pressed m P3).settings.toggleOn = 1 := by
  obtain ⟨a0, a1, a2, a3, a4⟩ := reads_tests hP3
  simp at a0 a1 a2 a3 a4
  simp [button_pressed, action_settings, *]

/-- The case in which the code agrees with C2, on a reachable machine: lamp
switched on with button 0, then cool-only. -/
theorem single_channel_toggle_witness :
    lamp_cool_powered.settings.toggleOn ≠ 0 ∧
    lamp_cool_powered.settings.channel = 2 ∧
    lamp_cool_powered.settings.button = 2 ∧
    lamp_cool_powered.settings.level = 180 ∧
    reads P3_only0 true false false false false ∧
    (button_pressed lamp_cool_powered P3_only0).settings.channel = 1 ∧
    (button_pressed lamp_cool_powered P3_only0).settings.button = 1 ∧
    (button_pressed lamp_cool_powered P3_only0).settings.level = 180 ∧
    (button_pressed lamp_cool_powered P3_only0).settings.toggleOn = 1 :=
  ⟨by decide, by decide, by decide, by decide, by decide,
    single_channel_toggle 180 lamp_cool_powered P3_only0 (by decide) (by decide) (by decide)
      (by decide) (by decide)⟩

/-! ## C3: debounce threshold -/

/-- C3: from any reachable `idle` state (the initial one, or the start of any
later debounce cycle) and a first tick at which some button reads pressed,
`evaluate_state` moves to `debouncing` on the first tick; the machine is still
in `debouncing` after each of the next ten ticks, with counter values 1..10
(never `buttonPressed` after 10 or fewer debouncing ticks); the eleventh
debouncing tick brings the counter to 11 and sets `buttonPressed`.  The port
readings after the first tick are arbitrary. -/
theorem debounce_threshold (m : Machine) (hm : Reachable m)
    (hs : m.settings.state = lampState.idle)
    (port : Nat → Nat) (hpress : pressed (port 0) P3_BTN_BMASK) :
    (run port 1 m).settings.state = lampState.debouncing ∧
    (∀ k, 1 ≤ k → k ≤ 10 →
      (run port (1 + k) m).settings.state = lampState.debouncing ∧
      (run port (1 + k) m).debounceCount = k) ∧
    (run port 12 m).settings.state = lampState.buttonPressed ∧
    (run port 12 m).debounceCount = 11 := by
  have hp := reachable_idle_prevState m hm hs
  refine ⟨?_, ?_, ?_, ?_⟩
  · unfold pressed at hpress
    simp [run, evaluate_state, hs, idle_state, hpress]
  · intro k h1 h10
    obtain ⟨j, rfl⟩ : ∃ j, k = j + 1 := ⟨k - 1, by omega⟩
    have e : 1 + (j + 1) = j + 2 := by omega
    rw [e, debounce_window m port hs hp hpress j (by omega)]
    exact ⟨rfl, rfl⟩
  · rw [debounce_window_end m port hs hp hpress]
  · rw [debounce_window_end m port hs hp hpress]

/-- C3 on the second debounce cycle of a run: `lamp_on` is the machine after a
complete first press cycle. -/
theorem debounce_threshold_witness :
    lamp_on.settings.state = lampState.idle ∧
    pressed (cycles [P3_only1] 0) P3_BTN_BMASK ∧
    (run (cycles [P3_only1]) 1 lamp_on).settings.state = lampState.debouncing ∧
    (run (cycles [P3_only1]) (1 + 10) lamp_on).settings.state = lampState.debouncing ∧
    (run (cycles [P3_only1]) (1 + 10) lamp_on).debounceCount = 10 ∧
    (run (cycles [P3_only1]) 12 lamp_on).settings.state = lampState.buttonPressed ∧
    (run (cycles [P3_only1]) 12 lamp_on).debounceCount = 11 :=
  have h := debounce_threshold lamp_on
    (reachable_run (cycles [P3_only0]) 15 (main_init 0xFF) (Reachable.init 0xFF))
    (by decide) (cycles [P3_only1]) (by decide)
  ⟨by decide, by decide, h.1, (h.2.1 10 (by decide) (by decide)).1,
    (h.2.1 10 (by decide) (by decide)).2, h.2.2.1, h.2.2.2⟩

/-! ## C4: release during the debounce window -/

/-- C4, as stated, fails: on the `glitch` trace from the initial state, button 0
reads pressed for the `idle` tick and five `debouncing` ticks and every later
reading has all buttons released; the machine nevertheless is in
`buttonPressed` after tick 12, and tick 13 calls `action`, which calls
`brightness_set(0, 0)`. -/
theorem debounce_release_counterexample :
    (main_init 0xFF).settings.state = lampState.idle ∧
    (∀ i : Fin 6, pressed (glitch i.val) P3_BTN_BMASK) ∧
    (∀ i : Fin 15, 6 ≤ i.val → ¬ pressed (glitch i.val) P3_BTN_BMASK) ∧
    (run glitch 12 (main_init 0xFF)).settings.state = lampState.buttonPressed ∧
    (run glitch 13 (main_init 0xFF)).log =
      (main_init 0xFF).log ++ [Event.actionCall, Event.brightnessSet 0 0] ∧
    (run glitch 15 (main_init 0xFF)).settings.state = lampState.idle := by
  decide

/-- C4, amended: `debounce` never reads the port.  From any reachable `idle`
state, for every port trace in which some button reads pressed at the first
tick and, after fewer than 11 ticks of `debouncing` (`k < 11`), all buttons
read released, the machine still reaches `buttonPressed` after the eleven
debouncing ticks; `button_pressed` then calls `action` exactly once (and
`action` calls `brightness_set` at most once), the machine goes on through
`buttonHeld` and `buttonReleased`, and after 15 ticks it is back in `idle` with
the settings record it started from. -/
theorem debounce_release (m : Machine) (hm : Reachable m)
    (hs : m.settings.state = lampState.idle)
    (port : Nat → Nat) (hpress : pressed (port 0) P3_BTN_BMASK)
    (k : Nat) (hk : k < 11) (hrel : ∀ i, k < i → ¬ pressed (port i) P3_BTN_BMASK) :
    (run port 12 m).settings.state = lampState.buttonPressed ∧
    (run port 13 m).settings.state = lampState.buttonHeld ∧
    (run port 13 m).log = (action (run port 12 m)).log ∧
    (∃ calls, (run port 13 m).log = m.log ++ Event.actionCall :: calls ∧ calls.length ≤ 1) ∧
    (run port 14 m).settings.state = lampState.buttonReleased ∧
    (run port 15 m).settings = m.settings ∧
    (run port 15 m).log = (run port 13 m).log := by
  have hp := reachable_idle_prevState m hm hs
  have h12 := debounce_window_end m port hs hp hpress
  have s12 : (run port 12 m).settings.state = lampState.buttonPressed := by rw [h12]
  have h13 : run port 13 m = { action (run port 12 m) with
      settings := { (run port 12 m).settings with state := lampState.buttonHeld } } := by
    rw [run_succ, ← button_pressed_released _ _ (hrel 12 (by omega))]
    simp [evaluate_state, s12]
  have h14 : run port 14 m = { run port 13 m with
      settings := { (run port 13 m).settings with state := lampState.buttonReleased }
      delayCount := 0
      rateCount := 0 } := by
    rw [run_succ, ← button_held_released _ _ (hrel 13 (by omega))]
    simp [evaluate_state, h13]
  have h15 : run port 15 m = button_released (run port 14 m) := by
    rw [run_succ]
    simp [evaluate_state, h14]
  have hlog : (run port 12 m).log = m.log := by rw [h12]
  refine ⟨s12, by rw [h13], by rw [h13], ?_, by rw [h14], ?_, by rw [h15, h14]; rfl⟩
  · obtain ⟨calls, hc, hl⟩ := action_log_prefix (run port 12 m)
    exact ⟨calls, by rw [h13]; simp only []; rw [hc, hlog], hl⟩
  · rw [h15, h14, h13, h12]
    simp only [button_released]
    rw [← hs]

/-- The amended C4 on the `glitch` trace from the initial state. -/
theorem debounce_release_witness :
    (main_init 0xFF).settings.state = lampState.idle ∧
    pressed (glitch 0) P3_BTN_BMASK ∧
    (∀ i, 5 < i → ¬ pressed (glitch i) P3_BTN_BMASK) ∧
    (run glitch 12 (main_init 0xFF)).settings.state = lampState.buttonPressed ∧
    (run glitch 13 (main_init 0xFF)).settings.state = lampState.buttonHeld ∧
    (∃ calls, (run glitch 13 (main_init 0xFF)).log =
      (main_init 0xFF).log ++ Event.actionCall :: calls ∧ calls.length ≤ 1) ∧
    (run glitch 15 (main_init 0xFF)).settings = (main_init 0xFF).settings :=
  have hrel : ∀ i, 5 < i → ¬ pressed (glitch i) P3_BTN_BMASK := fun i hi => by
    have e : glitch i = P3_none := by
      unfold glitch
      rw [if_neg (by omega)]
    rw [e]
    decide
  have h := debounce_release (main_init 0xFF) (Reachable.init 0xFF) rfl glitch (by decide) 5
    (by decide) hrel
  ⟨rfl, by decide, hrel, h.1, h.2.1, h.2.2.2.1, h.2.2.2.2.2.1⟩

/-! ## C5: typematic repeat -/

/-- C5 fails on the code once `delayCount` (16 bits) overflows.  `held_increase`
is the machine at the start of a hold of button 3 (state `buttonHeld`, both
counters 0).  Tick 65525 of the hold repeats (it resets `rateCount`); tick
65540 = 350 + 15 * 4346 should be the next repeat of the claimed schedule, but
`delayCount` has wrapped to 4, below the typematic delay of 350: the tick
makes no call (the log is unchanged), leaves `level` alone and leaves
`rateCount` at 15 without resetting it. -/
theorem typematic_overflow :
    held_increase.settings.state = lampState.buttonHeld ∧
    held_increase.delayCount = 0 ∧ held_increase.rateCount = 0 ∧
    reads P3_only3 false false false true false ∧
    65540 = 350 + 15 * 4346 ∧
    (run (fun _ => P3_only3) 65525 held_increase).rateCount = 0 ∧
    (run (fun _ => P3_only3) 65540 held_increase).delayCount = 4 ∧
    (run (fun _ => P3_only3) 65540 held_increase).rateCount = 15 ∧
    (run (fun _ => P3_only3) 65540 held_increase).log =
      (run (fun _ => P3_only3) 65539 held_increase).log ∧
    (run (fun _ => P3_only3) 65540 held_increase).settings.level =
      (run (fun _ => P3_only3) 65539 held_increase).settings.level := by
  have h3 : P3_only3 &&& P3_BTN3__BMASK ≠ P3_BTN3__BMASK := by decide
  have h4 : P3_only3 &&& P3_BTN4__BMASK = P3_BTN4__BMASK := by decide
  have hs : held_increase.settings.state = lampState.buttonHeld := by decide
  have hd : held_increase.delayCount = 0 := by decide
  have hr : held_increase.rateCount = 0 := by decide
  have a := hold_after_overflow_tick held_increase P3_only3 h3 h4 hs hd hr 65540
    (by omega) (by omega)
  have b := hold_after_overflow_tick held_increase P3_only3 h3 h4 hs hd hr 65539
    (by omega) (by omega)
  have c := hold_counters held_increase P3_only3 h3 h4 hs hd hr 65525 (by omega)
  have e0 : (if 65525 < 350 then 65525 else (65525 - 350) % 15) = 0 := by decide
  exact ⟨hs, hd, hr, by decide, by decide, c.2.2.trans e0, a.2.2.1, a.2.2.2,
    a.2.1.trans b.2.1.symm,
    (congrArg lampSettings.level a.1).trans (congrArg lampSettings.level b.1).symm⟩

/-! ## C6: saturation of the level -/

/-- C6: with a channel active, an increase step (`button_pressed` with only
button 3 pressed, or a `button_held` repeat tick with only button 3 pressed)
maps level 255 to 255 and any level below 255 to its successor; a decrease step
(the same with button 4) maps any level above 1 to its predecessor and level 1
to 1.  Hence any number (at least one) of presses of increase from 254 ends at
255, any number of presses of decrease from 2 ends at 1, and from a level in
1..255 no sequence of increase and decrease steps (`button_pressed` calls and
`button_held` ticks, in any order) leaves the range 1..255: the level neither
reaches 0 nor wraps around. -/
theorem level_saturation (m : Machine) (P3up P3down : Nat)
    (hup : reads P3up false false false true false)
    (hdown : reads P3down false false false false true)
    (hch : m.settings.channel ≠ 0) :
    (m.settings.level = 255 → (button_pressed m P3up).settings.level = 255) ∧
    (m.settings.level < 255 →
      (button_pressed m P3up).settings.level = m.settings.level + 1) ∧
    (1 < m.settings.level →
      (button_pressed m P3down).settings.level = m.settings.level - 1) ∧
    (m.settings.level = 1 → (button_pressed m P3down).settings.level = 1) ∧
    (350 ≤ (m.delayCount + 1) % 65536 → 15 ≤ (m.rateCount + 1) % 65536 →
      (m.settings.level = 255 → (button_held m P3up).settings.level = 255) ∧
      (m.settings.level < 255 →
        (button_held m P3up).settings.level = m.settings.level + 1) ∧
      (1 < m.settings.level →
        (button_held m P3down).settings.level = m.settings.level - 1) ∧
      (m.settings.level = 1 → (button_held m P3down).settings.level = 1)) ∧
    (m.settings.level = 254 → ∀ n, 1 ≤ n →
      (adjust_steps (List.replicate n (true, P3up)) m).settings.level = 255) ∧
    (m.settings.level = 2 → ∀ n, 1 ≤ n →
      (adjust_steps (List.replicate n (true, P3down)) m).settings.level = 1) ∧
    (1 ≤ m.settings.level → m.settings.level ≤ 255 →
      ∀ steps : List (Bool × Nat),
        (∀ st ∈ steps, reads st.2 false false false true false ∨
          reads st.2 false false false false true) →
        1 ≤ (adjust_steps steps m).settings.level ∧
          (adjust_steps steps m).settings.level ≤ 255) := by
  have eu := button_pressed_up m P3up hup hch
  have ed := button_pressed_down m P3down hdown hch
  obtain ⟨_, _, _, u3, u4⟩ := reads_tests hup
  obtain ⟨_, _, _, d3, d4⟩ := reads_tests hdown
  simp at u3 u4 d3 d4
  refine ⟨?_, ?_, ?_, ?_, ?_, ?_, ?_, ?_⟩
  · intro h; rw [eu]; simp [h]
  · intro h; rw [eu]; simp only [h, if_true]; omega
  · intro h; rw [ed]; simp [h]
  · intro h; rw [ed]; simp [h]
  · intro hd hr
    have hu := button_held_level m P3up
    have hd' := button_held_level m P3down
    simp only [hd, hr, u3, d3, d4, and_self, if_true, ne_eq, not_true_eq_false,
      not_false_eq_true, if_false] at hu hd'
    refine ⟨?_, ?_, ?_, ?_⟩
    · intro h; rw [hu]; simp [h]
    · intro h; rw [hu]; simp only [h, if_true]; omega
    · intro h; rw [hd']; simp [h]
    · intro h; rw [hd']; simp [h]
  · intro h n hn
    obtain ⟨k, rfl⟩ : ∃ k, n = k + 1 := ⟨n - 1, by omega⟩
    exact presses_up_top P3up hup k (button_pressed m P3up) (by rw [eu]; exact hch)
      (by rw [eu]; simp [h])
  · intro h n hn
    obtain ⟨k, rfl⟩ : ∃ k, n = k + 1 := ⟨n - 1, by omega⟩
    exact presses_down_floor P3down hdown k (button_pressed m P3down) (by rw [ed]; exact hch)
      (by rw [ed]; simp [h])
  · intro hl hu steps hports
    exact adjust_steps_bounds steps m hports hl hu

/-- C6 on the lamp switched on (channel Both, level 180): one press of
increase gives 181, one press of decrease gives 179, and a mixed sequence of
steps stays within 1..255. -/
theorem level_saturation_witness :
    reads P3_only3 false false false true false ∧
    reads P3_only4 false false false false true ∧
    lamp_on.settings.channel ≠ 0 ∧
    lamp_on.settings.level = 180 ∧
    (button_pressed lamp_on P3_only3).settings.level = lamp_on.settings.level + 1 ∧
    (button_pressed lamp_on P3_only4).settings.level = lamp_on.settings.level - 1 ∧
    1 ≤ (adjust_steps [(true, P3_only3), (false, P3_only4), (true, P3_only4)]
      lamp_on).settings.level ∧
    (adjust_steps [(true, P3_only3), (false, P3_only4), (true, P3_only4)]
      lamp_on).settings.level ≤ 255 :=
  have h := level_saturation lamp_on P3_only3 P3_only4 (by decide) (by decide) (by decide)
  have hs := h.2.2.2.2.2.2.2 (by decide) (by decide)
    [(true, P3_only3), (false, P3_only4), (true, P3_only4)] (by decide)
  ⟨by decide, by decide, by decide, by decide, h.2.1 (by decide), h.2.2.1 (by decide),
    hs.1, hs.2⟩

/-! ## C7: level invariant -/

/-- C7: in every state `m` reachable from the initial settings by
`evaluate_state` ticks under any port readings, power on implies
`1 ≤ level ≤ 255` and channel Both, Cool or Warm; and for every settings record
`m'`, a `button_pressed` step with only button 0 pressed that leaves the lamp
off (it took the turn-off branch: the other branch of that `if` sets
`toggleOn = 1`) leaves level 0 and channel None. -/
theorem level_invariant (m : Machine) (hm : Reachable m) (m' : Machine) (P3 : Nat)
    (hP3 : reads P3 true false false false false) :
    (m.settings.toggleOn ≠ 0 →
      1 ≤ m.settings.level ∧ m.settings.level ≤ 255 ∧
      (m.settings.channel = 1 ∨ m.settings.channel = 2 ∨ m.settings.channel = 4)) ∧
    ((button_pressed m' P3).settings.toggleOn = 0 →
      (button_pressed m' P3).settings.level = 0 ∧
      (button_pressed m' P3).settings.channel = 0) := by
  refine ⟨reachable_level_inv m hm, ?_⟩
  obtain ⟨a0, a1, a2, a3, a4⟩ := reads_tests hP3
  simp at a0 a1 a2 a3 a4
  by_cases ht : m'.settings.toggleOn = 0 <;>
  by_cases hb : m'.settings.button = 0 <;>
  by_cases hc : m'.settings.channel = 1 <;>
  simp [button_pressed, action_settings, a0, a1, a2, a3, a4, ht, hb, hc]

/-- C7 on the lamp switched on, which is reachable and has power on; pressing
button 0 on it switches it off. -/
theorem level_invariant_witness :
    reads P3_only0 true false false false false ∧
    lamp_on.settings.toggleOn ≠ 0 ∧
    (1 ≤ lamp_on.settings.level ∧ lamp_on.settings.level ≤ 255 ∧
      (lamp_on.settings.channel = 1 ∨ lamp_on.settings.channel = 2 ∨
        lamp_on.settings.channel = 4)) ∧
    (button_pressed lamp_on P3_only0).settings.toggleOn = 0 ∧
    (button_pressed lamp_on P3_only0).settings.level = 0 ∧
    (button_pressed lamp_on P3_only0).settings.channel = 0 :=
  have h := level_invariant lamp_on
    (reachable_run (cycles [P3_only0]) 15 (main_init 0xFF) (Reachable.init 0xFF))
    lamp_on P3_only0 (by decide)
  ⟨by decide, by decide, h.1 (by decide), by decide, (h.2 (by decide)).1,
    (h.2 (by decide)).2⟩

/-! ## C8: the lookup tables are monotone -/

/-- C8: for each of the two brightness tables and all indices `i ≤ j` in
0..255, both lookups succeed and the entry at `i` is at most the entry at
`j`. -/
theorem tables_monotone (i j : Nat) (hij : i ≤ j) (hj : j ≤ 255) :
    (∃ a b, brightness_table_channel0[i]? = some a ∧
      brightness_table_channel0[j]? = some b ∧ a ≤ b) ∧
    (∃ a b, brightness_table_channel1[i]? = some a ∧
      brightness_table_channel1[j]? = some b ∧ a ≤ b) :=
  ⟨lookup_mono _ table0_nondecreasing i j hij (by rw [table0_length]; omega),
   lookup_mono _ table1_nondecreasing i j hij (by rw [table1_length]; omega)⟩

/-- C8 at the default level 180 and the top level 255. -/
theorem tables_monotone_witness :
    (180 : Nat) ≤ 255 ∧ (255 : Nat) ≤ 255 ∧
    (∃ a b, brightness_table_channel0[180]? = some a ∧
      brightness_table_channel0[255]? = some b ∧ a ≤ b) ∧
    (∃ a b, brightness_table_channel1[180]? = some a ∧
      brightness_table_channel1[255]? = some b ∧ a ≤ b) :=
  ⟨by decide, by decide, tables_monotone 180 255 (by decide) (by decide)⟩

/-! ## C9: table lookups are in range -/

/-- C9: each table has exactly 256 entries; for every pair of 8-bit levels
`(a, b)` both lookups of `brightness_set` succeed and it hands exactly
`(table0[a], table1[b])` to `pwm_set`; the warm target is at most 4095 and the
cool target at most 2395 (so both lie in 0..4095), and these maxima are the last
entries of the tables. -/
theorem lookups_in_range (a b : Nat) (ha : a ≤ 255) (hb : b ≤ 255) :
    brightness_table_channel0.length = 256 ∧
    brightness_table_channel1.length = 256 ∧
    (∃ t0 t1, brightness_table_channel0[a]? = some t0 ∧
      brightness_table_channel1[b]? = some t1 ∧
      brightness_set a b = some (t0, t1) ∧
      t0 ≤ 4095 ∧ t1 ≤ 2395) ∧
    brightness_table_channel0[255]? = some 4095 ∧
    brightness_table_channel1[255]? = some 2395 := by
  obtain ⟨t0, h0, m0⟩ := lookup_some brightness_table_channel0 a (by rw [table0_length]; omega)
  obtain ⟨t1, h1, m1⟩ := lookup_some brightness_table_channel1 b (by rw [table1_length]; omega)
  have b0 : t0 ≤ 4095 := by
    have := List.all_eq_true.mp table0_bound t0 m0
    exact of_decide_eq_true this
  have b1 : t1 ≤ 2395 := by
    have := List.all_eq_true.mp table1_bound t1 m1
    exact of_decide_eq_true this
  exact ⟨table0_length, table1_length,
    ⟨t0, t1, h0, h1, brightness_set_some a b t0 t1 h0 h1, b0, b1⟩, tables_top.1, tables_top.2⟩

/-- C9 at the pair of levels (180, 0). -/
theorem lookups_in_range_witness :
    (180 : Nat) ≤ 255 ∧ (0 : Nat) ≤ 255 ∧
    (∃ t0 t1, brightness_table_channel0[180]? = some t0 ∧
      brightness_table_channel1[0]? = some t1 ∧
      brightness_set 180 0 = some (t0, t1) ∧
      t0 ≤ 4095 ∧ t1 ≤ 2395) :=
  ⟨by decide, by decide, (lookups_in_range 180 0 (by decide) (by decide)).2.2.1⟩

/-! ## C10: action dispatch -/

/-- C10: for every settings record, `action` makes exactly the call
`brightness_set(0, level)` when button is CoolOnly, `brightness_set(level, 0)`
when button is WarmOnly, `brightness_set(level, level)` when button is Both and
power is on, `brightness_set(level, level)` together with switching the
indicator off (bit 4 of `P1` cleared) when button is None and power is off, and
when button is Adjust the call `brightness_set(level, level)`,
`brightness_set(0, level)` or `brightness_set(level, 0)` according to channel
being Both, Cool or Warm; nothing else of the machine changes.  The first
argument of `brightness_set` indexes the warm table (channel 0) and the second
the cool table (channel 1). -/
theorem action_dispatch (m : Machine) :
    (m.settings.button = 2 →
      action m = { m with log := m.log ++
        [Event.actionCall, Event.brightnessSet 0 m.settings.level] }) ∧
    (m.settings.button = 4 →
      action m = { m with log := m.log ++
        [Event.actionCall, Event.brightnessSet m.settings.level 0] }) ∧
    (m.settings.button = 1 → m.settings.toggleOn ≠ 0 →
      action m = { m with log := m.log ++
        [Event.actionCall, Event.brightnessSet m.settings.level m.settings.level] }) ∧
    (m.settings.button = 0 → m.settings.toggleOn = 0 →
      action m = { m with
        P1 := m.P1 &&& (0xFF ^^^ P1_B4__BMASK)
        log := m.log ++
          [Event.actionCall, Event.brightnessSet m.settings.level m.settings.level] } ∧
      (action m).P1 &&& P1_B4__BMASK = 0) ∧
    (m.settings.button = 8 → m.settings.channel = 1 →
      action m = { m with log := m.log ++
        [Event.actionCall, Event.brightnessSet m.settings.level m.settings.level] }) ∧
    (m.settings.button = 8 → m.settings.channel = 2 →
      action m = { m with log := m.log ++
        [Event.actionCall, Event.brightnessSet 0 m.settings.level] }) ∧
    (m.settings.button = 8 → m.settings.channel = 4 →
      action m = { m with log := m.log ++
        [Event.actionCall, Event.brightnessSet m.settings.level 0] }) ∧
    (∀ a b t0 t1, brightness_set a b = some (t0, t1) →
      brightness_table_channel0[a]? = some t0 ∧ brightness_table_channel1[b]? = some t1) := by
  refine ⟨action_cool m, action_warm m, action_both_on m, ?_, action_adjust_both m,
    action_adjust_cool m, action_adjust_warm m, brightness_set_lookups⟩
  intro hb ht
  refine ⟨action_off m hb ht, ?_⟩
  rw [action_off m hb ht]
  exact indicator_off m.P1

/-- C10 on a lamp whose button is CoolOnly at level 180. -/
theorem action_dispatch_witness :
    lamp_cool_powered.settings.button = 2 ∧
    action lamp_cool_powered = { lamp_cool_powered with log := lamp_cool_powered.log ++
        [Event.actionCall, Event.brightnessSet 0 180] } :=
  ⟨by decide, (action_dispatch lamp_cool_powered).1 (by decide)⟩

/-! ## C11: write protocol of `pwm_set` -/

/-- C11: for every pair of 16-bit targets `(a, b)` and every prior register
state (with `SFRPAGE` a byte), the register writes of `pwm_set` are exactly:
`SFRPAGE := 0x10`; `PWMCFG0` with the SYNCUPD field cleared; low byte then high
byte of `a` to the update registers of channel 0; low byte then high byte of
`b` to those of channel 1; `PWMCFG0` with the SYNCUPD field set to
`CH0CH1CH2`; `SFRPAGE` restored.  The SYNCUPD field is zero (and the page is
0x10) in the register file before each of the four byte writes and after the
last of them, it is set at the end, the update registers recombine
(`high * 256 + low`) to `a` and `b`, and `SFRPAGE` ends as it started.  The two
header constants are parameters: the field mask is a byte mask and the value
`CH0CH1CH2` is a non-zero value inside that field. -/
theorem pwm_set_protocol (FMASK CH : Nat) (hF : FMASK ≤ 255) (hC : CH &&& FMASK = CH)
    (hC0 : CH ≠ 0) (p : Pwm) (hpage : p.regs.SFRPAGE ≤ 255) (a b : Nat)
    (ha : a < 65536) (hb : b < 65536) :
    (pwm_set FMASK CH p a b).writes = p.writes ++
      [(SfrReg.SFRPAGE, 0x10),
       (SfrReg.PWMCFG0, p.regs.PWMCFG0 &&& (0xFF ^^^ FMASK)),
       (SfrReg.PWMCPUDL0, a % 256), (SfrReg.PWMCPUDH0, a / 256),
       (SfrReg.PWMCPUDL1, b % 256), (SfrReg.PWMCPUDH1, b / 256),
       (SfrReg.PWMCFG0, (p.regs.PWMCFG0 &&& (0xFF ^^^ FMASK)) ||| CH),
       (SfrReg.SFRPAGE, p.regs.SFRPAGE)] ∧
    (∀ k, 2 ≤ k → k ≤ 6 →
      (replay p.regs ((pwm_set FMASK CH p a b).writes.drop p.writes.length) k).PWMCFG0
        &&& FMASK = 0 ∧
      (replay p.regs ((pwm_set FMASK CH p a b).writes.drop p.writes.length) k).SFRPAGE
        = 0x10) ∧
    (pwm_set FMASK CH p a b).regs =
      replay p.regs ((pwm_set FMASK CH p a b).writes.drop p.writes.length) 8 ∧
    (pwm_set FMASK CH p a b).regs.PWMCFG0 &&& FMASK = CH ∧
    (pwm_set FMASK CH p a b).regs.PWMCFG0 &&& FMASK ≠ 0 ∧
    (pwm_set FMASK CH p a b).regs.PWMCPUDH0 * 256 +
      (pwm_set FMASK CH p a b).regs.PWMCPUDL0 = a ∧
    (pwm_set FMASK CH p a b).regs.PWMCPUDH1 * 256 +
      (pwm_set FMASK CH p a b).regs.PWMCPUDL1 = b ∧
    (pwm_set FMASK CH p a b).regs.SFRPAGE = p.regs.SFRPAGE := by
  have hand : ∀ x : Nat, x &&& 0xff = x % 256 := fun x => Nat.and_pow_two_sub_one_eq_mod x 8
  have hla : a &&& 0xff = a % 256 := hand a
  have hha : (a >>> 8) &&& 0xff = a / 256 := by
    rw [hand, Nat.shiftRight_eq_div_pow]; omega
  have hlb : b &&& 0xff = b % 256 := hand b
  have hhb : (b >>> 8) &&& 0xff = b / 256 := by
    rw [hand, Nat.shiftRight_eq_div_pow]; omega
  have hv1 : p.regs.PWMCFG0 &&& (0xFF ^^^ FMASK) < 256 :=
    Nat.lt_of_le_of_lt Nat.and_le_right (Nat.xor_lt_two_pow (n := 8) (by omega) (by omega))
  have hCH : CH < 256 := by
    have : CH ≤ FMASK := by rw [← hC]; exact Nat.and_le_right
    omega
  have hv2 : ((p.regs.PWMCFG0 &&& (0xFF ^^^ FMASK)) ||| CH) % 256 =
      (p.regs.PWMCFG0 &&& (0xFF ^^^ FMASK)) ||| CH :=
    Nat.mod_eq_of_lt (Nat.or_lt_two_pow (n := 8) hv1 hCH)
  have hpg : p.regs.SFRPAGE % 256 = p.regs.SFRPAGE := Nat.mod_eq_of_lt (by omega)
  have hclr := field_cleared p.regs.PWMCFG0 FMASK hF
  have hset := field_set p.regs.PWMCFG0 FMASK CH hF hC
  have hw : (pwm_set FMASK CH p a b).writes = p.writes ++
      [(SfrReg.SFRPAGE, 0x10),
       (SfrReg.PWMCFG0, p.regs.PWMCFG0 &&& (0xFF ^^^ FMASK)),
       (SfrReg.PWMCPUDL0, a % 256), (SfrReg.PWMCPUDH0, a / 256),
       (SfrReg.PWMCPUDL1, b % 256), (SfrReg.PWMCPUDH1, b / 256),
       (SfrReg.PWMCFG0, (p.regs.PWMCFG0 &&& (0xFF ^^^ FMASK)) ||| CH),
       (SfrReg.SFRPAGE, p.regs.SFRPAGE)] := by
    simp [pwm_set, reg_assign, sfr_write, hla, hha, hlb, hhb, hv2, hpg]
  have hr : (pwm_set FMASK CH p a b).regs =
      { SFRPAGE := p.regs.SFRPAGE
        PWMCFG0 := (p.regs.PWMCFG0 &&& (0xFF ^^^ FMASK)) ||| CH
        PWMCPUDL0 := a % 256, PWMCPUDH0 := a / 256
        PWMCPUDL1 := b % 256, PWMCPUDH1 := b / 256 } := by
    simp [pwm_set, reg_assign, sfr_write, hla, hha, hlb, hhb, hv2, hpg]
  have hdrop : (pwm_set FMASK CH p a b).writes.drop p.writes.length =
      [(SfrReg.SFRPAGE, 0x10),
       (SfrReg.PWMCFG0, p.regs.PWMCFG0 &&& (0xFF ^^^ FMASK)),
       (SfrReg.PWMCPUDL0, a % 256), (SfrReg.PWMCPUDH0, a / 256),
       (SfrReg.PWMCPUDL1, b % 256), (SfrReg.PWMCPUDH1, b / 256),
       (SfrReg.PWMCFG0, (p.regs.PWMCFG0 &&& (0xFF ^^^ FMASK)) ||| CH),
       (SfrReg.SFRPAGE, p.regs.SFRPAGE)] := by
    rw [hw, List.drop_left]
  refine ⟨hw, ?_, ?_, ?_, ?_, ?_, ?_, ?_⟩
  · intro k h2 h6
    rw [hdrop]
    have hk : k = 2 ∨ k = 3 ∨ k = 4 ∨ k = 5 ∨ k = 6 := by omega
    rcases hk with rfl | rfl | rfl | rfl | rfl <;>
    exact ⟨hclr, rfl⟩
  · rw [hdrop, hr]; rfl
  · rw [hr]; exact hset
  · rw [hr]; show _ &&& FMASK ≠ 0; rw [hset]; exact hC0
  · rw [hr]; show a / 256 * 256 + a % 256 = a; omega
  · rw [hr]; show b / 256 * 256 + b % 256 = b; omega
  · rw [hr]

/-- C11 at the targets of level 180 (1298 and 614), with illustrative values
0x70 and 0x30 for the two header constants. -/
theorem pwm_set_protocol_witness :
    (0x70 : Nat) ≤ 255 ∧ (0x30 : Nat) &&& 0x70 = 0x30 ∧ (0x30 : Nat) ≠ 0 ∧
    pwm_reset.regs.SFRPAGE ≤ 255 ∧ (1298 : Nat) < 65536 ∧ (614 : Nat) < 65536 ∧
    (pwm_set 0x70 0x30 pwm_reset 1298 614).regs.PWMCFG0 &&& 0x70 = 0x30 ∧
    (pwm_set 0x70 0x30 pwm_reset 1298 614).regs.PWMCPUDH0 * 256 +
      (pwm_set 0x70 0x30 pwm_reset 1298 614).regs.PWMCPUDL0 = 1298 ∧
    (pwm_set 0x70 0x30 pwm_reset 1298 614).regs.PWMCPUDH1 * 256 +
      (pwm_set 0x70 0x30 pwm_reset 1298 614).regs.PWMCPUDL1 = 614 ∧
    (pwm_set 0x70 0x30 pwm_reset 1298 614).regs.SFRPAGE = pwm_reset.regs.SFRPAGE :=
  have h := pwm_set_protocol 0x70 0x30 (by decide) (by decide) (by decide) pwm_reset
    (by decide) 1298 614 (by decide) (by decide)
  ⟨by decide, by decide, by decide, by decide, by decide, by decide,
    h.2.2.2.1, h.2.2.2.2.2.1, h.2.2.2.2.2.2.1, h.2.2.2.2.2.2.2⟩

/-! ## C12: `action` is idempotent -/

/-- C12: for every settings record, `action` does not modify the settings; a
second call of `action` right after the first logs the same events `evs` again,
so it passes the same PWM targets to `pwm_set`; and any machine `m'` whose
button, power, channel and level agree with those of `m` logs the same events:
the targets are a function of these four fields only. -/
theorem action_idempotent (m m' : Machine)
    (hb : m'.settings.button = m.settings.button)
    (ht : m'.settings.toggleOn = m.settings.toggleOn)
    (hc : m'.settings.channel = m.settings.channel)
    (hl : m'.settings.level = m.settings.level) :
    (action m).settings = m.settings ∧
    (∃ evs, (action m).log = m.log ++ evs ∧
      (action (action m)).log = m.log ++ evs ++ evs ∧
      (action m').log = m'.log ++ evs ∧
      pwm_calls ((action (action m)).log.drop (action m).log.length) = pwm_calls evs) := by
  refine ⟨action_settings m, Event.actionCall ::
      action_calls m.settings.button m.settings.toggleOn m.settings.channel
        m.settings.level, action_log m, ?_, ?_, ?_⟩
  · rw [action_log (action m), action_settings, action_log m, List.append_assoc]
  · rw [action_log m', hb, ht, hc, hl]
  · rw [action_log (action m), action_settings, List.drop_left]

/-- C12 on the lamp switched on, compared with itself. -/
theorem action_idempotent_witness :
    (action lamp_on).settings = lamp_on.settings ∧
    (∃ evs, (action lamp_on).log = lamp_on.log ++ evs ∧
      (action (action lamp_on)).log = lamp_on.log ++ evs ++ evs ∧
      (action lamp_on).log = lamp_on.log ++ evs ∧
      pwm_calls ((action (action lamp_on)).log.drop (action lamp_on).log.length) =
        pwm_calls evs) :=
  action_idempotent lamp_on lamp_on rfl rfl rfl rfl

/-! ## C13: order of the states -/

/-- C13: for every machine state and every port reading, the state after one
`evaluate_state` tick is the same state or the next one in the cycle Idle,
Debouncing, ButtonPressed, ButtonHeld, ButtonReleased, Idle.  From Idle the
machine goes to Debouncing when some button reads pressed and stays in Idle
otherwise, so it never reaches ButtonPressed in one tick; ButtonPressed always
goes to ButtonHeld and ButtonReleased always goes to Idle. -/
theorem state_order (m : Machine) (P3 : Nat) :
    ((evaluate_state m P3).settings.state = m.settings.state ∨
      (evaluate_state m P3).settings.state = next_state m.settings.state) ∧
    (m.settings.state = lampState.idle →
      (pressed P3 P3_BTN_BMASK →
        (evaluate_state m P3).settings.state = lampState.debouncing) ∧
      (¬ pressed P3 P3_BTN_BMASK →
        (evaluate_state m P3).settings.state = lampState.idle) ∧
      (evaluate_state m P3).settings.state ≠ lampState.buttonPressed) ∧
    (m.settings.state = lampState.buttonPressed →
      (evaluate_state m P3).settings.state = lampState.buttonHeld) ∧
    (m.settings.state = lampState.buttonReleased →
      (evaluate_state m P3).settings.state = lampState.idle) := by
  have hidle : m.settings.state = lampState.idle →
      (pressed P3 P3_BTN_BMASK →
        (evaluate_state m P3).settings.state = lampState.debouncing) ∧
      (¬ pressed P3 P3_BTN_BMASK →
        (evaluate_state m P3).settings.state = lampState.idle) := by
    intro hs
    constructor
    · intro hp
      unfold pressed at hp
      simp [evaluate_state, hs, idle_state, hp]
    · intro hp
      unfold pressed at hp
      simp [evaluate_state, hs, idle_state, hp, hs]
  have hpress : m.settings.state = lampState.buttonPressed →
      (evaluate_state m P3).settings.state = lampState.buttonHeld := by
    intro hs
    simp only [evaluate_state, hs]
    exact (button_pressed_frame m P3).2.2.2.2
  have hrel : m.settings.state = lampState.buttonReleased →
      (evaluate_state m P3).settings.state = lampState.idle := by
    intro hs
    simp [evaluate_state, hs, button_released]
  refine ⟨?_, ?_, hpress, hrel⟩
  · rcases hst : m.settings.state with _ | _ | _ | _ | _
    · by_cases hp : pressed P3 P3_BTN_BMASK
      · right; exact (hidle hst).1 hp
      · left; exact (hidle hst).2 hp
    · have e : evaluate_state m P3 = debounce m := by simp [evaluate_state, hst]
      rw [e]
      exact debounce_state m hst
    · right; exact hpress hst
    · have e : evaluate_state m P3 = button_held m P3 := by simp [evaluate_state, hst]
      rw [e, button_held_state, hst]
      by_cases ha : P3 &&& P3_BTN_BMASK = P3_BTN_BMASK
      · right; simp [ha, next_state]
      · left; simp [ha]
    · right; exact hrel hst
  · intro hs
    refine ⟨(hidle hs).1, (hidle hs).2, ?_⟩
    by_cases hp : pressed P3 P3_BTN_BMASK
    · rw [(hidle hs).1 hp]; decide
    · rw [(hidle hs).2 hp]; decide

/-- C13 on the lamp switched on, which is in Idle, with button 0 pressed. -/
theorem state_order_witness :
    lamp_on.settings.state = lampState.idle ∧
    pressed P3_only0 P3_BTN_BMASK ∧
    (evaluate_state lamp_on P3_only0).settings.state = lampState.debouncing ∧
    (evaluate_state lamp_on P3_only0).settings.state ≠ lampState.buttonPressed :=
  have h := (state_order lamp_on P3_only0).2.1 (by decide)
  ⟨by decide, by decide, h.1 (by decide), h.2.2⟩

/-! ## C14: the toggle is edge-triggered -/

/-- C14: from any reachable Idle state, over a port trace in which button 0
alone reads pressed on every tick, the toggle is never repeated: for every `N`
the number of the first `N` ticks in which `button_pressed` runs is at most one
(none while the debounce window is still open, `N ≤ 12`, and exactly one, tick
13, once the hold is past it, `N ≥ 13`).  Up to tick 12 button, power, channel,
level and log are untouched; from tick 13 on, however large `N` is, the
settings are those of the button 0 block applied once to the starting record
(state ButtonHeld) and `action` has been called exactly once.  Moreover
`button_held` never changes power, channel or button, and leaves the level
alone when neither button 3 nor button 4 reads pressed. -/
theorem toggle_once (m : Machine) (hm : Reachable m)
    (hs : m.settings.state = lampState.idle) (port : Nat → Nat)
    (hport : ∀ i, reads (port i) true false false false false) (N : Nat)
    (m' : Machine) (P3 : Nat) :
    pressed_ticks port m N = (if 13 ≤ N then 1 else 0) ∧
    (N ≤ 12 →
      (run port N m).settings.button = m.settings.button ∧
      (run port N m).settings.toggleOn = m.settings.toggleOn ∧
      (run port N m).settings.channel = m.settings.channel ∧
      (run port N m).settings.level = m.settings.level ∧
      (run port N m).log = m.log) ∧
    (13 ≤ N →
      (run port N m).settings =
        { toggle_block m.settings (port 12) with state := lampState.buttonHeld } ∧
      List.count Event.actionCall (run port N m).log =
        List.count Event.actionCall m.log + 1) ∧
    ((button_held m' P3).settings.toggleOn = m'.settings.toggleOn ∧
      (button_held m' P3).settings.channel = m'.settings.channel ∧
      (button_held m' P3).settings.button = m'.settings.button ∧
      (¬ pressed P3 P3_BTN3__BMASK → ¬ pressed P3 P3_BTN4__BMASK →
        (button_held m' P3).settings.level = m'.settings.level)) := by
  have hp := reachable_idle_prevState m hm hs
  obtain ⟨hdeb, h12, e13, hheld, _⟩ := hold_from_idle m port hs hp hport
  refine ⟨?_, ?_, ?_, ?_⟩
  · induction N with
    | zero => rfl
    | succ N ih =>
      show pressed_ticks port m N + _ = _
      rw [ih]
      by_cases c : N = 12
      · rw [if_pos ((hold_from_idle_pressed m port hs hp hport N).mpr c)]
        subst c
        rfl
      · rw [if_neg (fun h => c ((hold_from_idle_pressed m port hs hp hport N).mp h))]
        split_ifs <;> omega
  · intro hN
    by_cases c0 : N = 0
    · subst c0; exact ⟨rfl, rfl, rfl, rfl, rfl⟩
    by_cases c1 : N ≤ 11
    · obtain ⟨es, el⟩ := hdeb N (by omega) c1
      rw [es, el]
      exact ⟨rfl, rfl, rfl, rfl, rfl⟩
    · have c2 : N = 12 := by omega
      subst c2
      rw [h12.1, h12.2]
      exact ⟨rfl, rfl, rfl, rfl, rfl⟩
  · intro hN
    obtain ⟨es, el⟩ := hheld N hN
    rw [es, el, e13]
    constructor
    · rw [button_pressed_only0 _ _ (hport 12), h12.1]
      exact toggle_block_state m.settings (port 12) _ _
    · rw [button_pressed_log, action_count, h12.2]
  · obtain ⟨_, _, fb, ft, fc⟩ := button_held_frame m' P3
    refine ⟨ft, fc, fb, ?_⟩
    intro h3 h4
    unfold pressed at h3 h4
    rw [button_held_level]
    simp [not_not.mp h3, not_not.mp h4]

/-- C14 from the initial state, after 100 ticks of holding button 0: one
toggle. -/
theorem toggle_once_witness :
    (main_init 0xFF).settings.state = lampState.idle ∧
    reads P3_only0 true false false false false ∧
    pressed_ticks (fun _ => P3_only0) (main_init 0xFF) 100 = (if 13 ≤ 100 then 1 else 0) ∧
    (run (fun _ => P3_only0) 100 (main_init 0xFF)).settings =
      { toggle_block (main_init 0xFF).settings P3_only0 with
        state := lampState.buttonHeld } ∧
    List.count Event.actionCall (run (fun _ => P3_only0) 100 (main_init 0xFF)).log =
      List.count Event.actionCall (main_init 0xFF).log + 1 :=
  have h := toggle_once (main_init 0xFF) (Reachable.init 0xFF) rfl (fun _ => P3_only0)
    (fun _ => (by decide : reads P3_only0 true false false false false)) 100 lamp_on P3_only0
  ⟨rfl, by decide, h.1, (h.2.2.1 (by decide)).1, (h.2.2.1 (by decide)).2⟩

/-! ## C15: channel-select buttons -/

/-- C15: for every settings record, `button_pressed` with only button 1 pressed
gives `button = channel = CoolOnly`, with only button 2 pressed
`button = channel = WarmOnly`; the next state is ButtonHeld and no other field
(power, level) changes. -/
theorem channel_select (m : Machine) (P3cool P3warm : Nat)
    (hcool : reads P3cool false true false false false)
    (hwarm : reads P3warm false false true false false) :
    (button_pressed m P3cool).settings =
      { m.settings with state := lampState.buttonHeld, button := 2, channel := 2 } ∧
    (button_pressed m P3warm).settings =
      { m.settings with state := lampState.buttonHeld, button := 4, channel := 4 } := by
  obtain ⟨a0, a1, a2, a3, a4⟩ := reads_tests hcool
  obtain ⟨b0, b1, b2, b3, b4⟩ := reads_tests hwarm
  simp at a0 a1 a2 a3 a4 b0 b1 b2 b3 b4
  constructor
  · simp [button_pressed, action_settings, a0, a1, a2, a3, a4]
  · simp [button_pressed, action_settings, b0, b1, b2, b3, b4]

/-- C15 on the lamp switched on. -/
theorem channel_select_witness :
    reads P3_only1 false true false false false ∧
    reads P3_only2 false false true false false ∧
    (button_pressed lamp_on P3_only1).settings =
      { lamp_on.settings with state := lampState.buttonHeld, button := 2, channel := 2 } ∧
    (button_pressed lamp_on P3_only2).settings =
      { lamp_on.settings with state := lampState.buttonHeld, button := 4, channel := 4 } :=
  have h := channel_select lamp_on P3_only1 P3_only2 (by decide) (by decide)
  ⟨by decide, by decide, h.1, h.2⟩

/-! ## C16: adjusting needs an active channel -/

/-- C16: for every settings record with channel None, `button_pressed` with
buttons 0, 1, 2 released and any combination of buttons 3 and 4 changes nothing
but the state: button is not set to Adjust and the level is not changed.  For
every settings record with an active channel, only button 3 (only button 4)
pressed sets button to Adjust, changes the level by the saturating increment
(decrement) and changes nothing else besides the state. -/
theorem adjust_needs_channel (m : Machine) (P3 P3up P3down : Nat) (b3 b4 : Bool)
    (hP3 : reads P3 false false false b3 b4)
    (hup : reads P3up false false false true false)
    (hdown : reads P3down false false false false true) :
    (m.settings.channel = 0 →
      (button_pressed m P3).settings =
        { m.settings with state := lampState.buttonHeld }) ∧
    (m.settings.channel ≠ 0 →
      (button_pressed m P3up).settings =
        { m.settings with
          state := lampState.buttonHeld
          button := 8
          level := if m.settings.level < 255 then m.settings.level + 1
            else m.settings.level } ∧
      (button_pressed m P3down).settings =
        { m.settings with
          state := lampState.buttonHeld
          button := 8
          level := if m.settings.level > 1 then m.settings.level - 1
            else m.settings.level }) := by
  constructor
  · intro hch
    obtain ⟨a0, a1, a2, _, _⟩ := reads_tests hP3
    simp at a0 a1 a2
    exact button_pressed_no_channel m P3 a0 a1 a2 hch
  · intro hch
    constructor
    · rw [button_pressed_up m P3up hup hch]
      by_cases hl : m.settings.level < 255
      · have : (m.settings.level + 1) % 256 = m.settings.level + 1 := by omega
        simp [hl, this]
      · simp [hl]
    · exact button_pressed_down m P3down hdown hch

/-- C16: the initial record (channel None) with buttons 3 and 4 both pressed,
and the lamp switched on with one of them pressed. -/
theorem adjust_needs_channel_witness :
    reads P3_both34 false false false true true ∧
    reads P3_only3 false false false true false ∧
    reads P3_only4 false false false false true ∧
    (main_init 0xFF).settings.channel = 0 ∧
    (button_pressed (main_init 0xFF) P3_both34).settings =
      { (main_init 0xFF).settings with state := lampState.buttonHeld } ∧
    lamp_on.settings.channel ≠ 0 ∧
    (button_pressed lamp_on P3_only3).settings =
      { lamp_on.settings with
        state := lampState.buttonHeld
        button := 8
        level := if lamp_on.settings.level < 255 then lamp_on.settings.level + 1
          else lamp_on.settings.level } :=
  ⟨by decide, by decide, by decide, rfl,
    (adjust_needs_channel (main_init 0xFF) P3_both34 P3_only3 P3_only4 true true
      (by decide) (by decide) (by decide)).1 rfl,
    by decide,
    ((adjust_needs_channel lamp_on P3_both34 P3_only3 P3_only4 true true
      (by decide) (by decide) (by decide)).2 (by decide)).1⟩

/-! ## C17: release condition of the hold -/

/-- C17: for every machine state and port reading, `button_held` sets the state
to ButtonReleased and resets both counters to 0 when all five buttons read
released; when at least one button reads pressed the state is left as it was
(ButtonHeld stays ButtonHeld) and `delayCount` is stepped, not reset; so from
ButtonHeld the state becomes ButtonReleased exactly when all five buttons read
released.  Consequently, in every reachable state outside ButtonHeld both
counters are 0, and they are 0 on every entry into ButtonHeld. -/
theorem hold_release (m : Machine) (P3 : Nat) (r : Machine) (hr : Reachable r) :
    (¬ pressed P3 P3_BTN_BMASK →
      button_held m P3 =
        { m with
          settings := { m.settings with state := lampState.buttonReleased }
          delayCount := 0
          rateCount := 0 }) ∧
    (pressed P3 P3_BTN_BMASK →
      (button_held m P3).settings.state = m.settings.state ∧
      (button_held m P3).delayCount = (m.delayCount + 1) % 65536) ∧
    (m.settings.state = lampState.buttonHeld →
      ((button_held m P3).settings.state = lampState.buttonReleased ↔
        ¬ pressed P3 P3_BTN_BMASK)) ∧
    (r.settings.state ≠ lampState.buttonHeld → r.delayCount = 0 ∧ r.rateCount = 0) ∧
    (r.settings.state = lampState.buttonPressed →
      (evaluate_state r P3).settings.state = lampState.buttonHeld ∧
      (evaluate_state r P3).delayCount = 0 ∧ (evaluate_state r P3).rateCount = 0) := by
  refine ⟨button_held_released m P3, ?_, ?_, reachable_hold_inv r hr, ?_⟩
  · intro hp
    unfold pressed at hp
    rw [button_held_state, button_held_delay, if_neg hp, if_neg hp]
    exact ⟨rfl, rfl⟩
  · intro hs
    rw [button_held_state, hs]
    unfold pressed
    by_cases ha : P3 &&& P3_BTN_BMASK = P3_BTN_BMASK
    · simp [ha]
    · simp [ha]
  · intro hs
    have hc := reachable_hold_inv r hr (by rw [hs]; decide)
    have e : evaluate_state r P3 = button_pressed r P3 := by simp [evaluate_state, hs]
    obtain ⟨_, _, fd, fr, fs⟩ := button_pressed_frame r P3
    rw [e, fd, fr]
    exact ⟨fs, hc.1, hc.2⟩

/-- C17 on the hold of button 3 after the lamp was switched on: a reading with
button 4 still pressed keeps ButtonHeld, a reading with all buttons released
ends the hold. -/
theorem hold_release_witness :
    held_increase.settings.state = lampState.buttonHeld ∧
    pressed P3_only4 P3_BTN_BMASK ∧ ¬ pressed P3_none P3_BTN_BMASK ∧
    (button_held held_increase P3_only4).settings.state = lampState.buttonHeld ∧
    (button_held held_increase P3_none).settings.state = lampState.buttonReleased ∧
    (button_held held_increase P3_none).delayCount = 0 ∧
    (button_held held_increase P3_none).rateCount = 0 ∧
    lamp_on.settings.state ≠ lampState.buttonHeld ∧
    lamp_on.delayCount = 0 ∧ lamp_on.rateCount = 0 :=
  have hr : Reachable lamp_on :=
    reachable_run (cycles [P3_only0]) 15 (main_init 0xFF) (Reachable.init 0xFF)
  have h4 := hold_release held_increase P3_only4 lamp_on hr
  have h0 := hold_release held_increase P3_none lamp_on hr
  ⟨by decide, by decide, by decide,
    ((h4.2.1 (by decide)).1).trans (by decide),
    (h0.2.2.1 (by decide)).mpr (by decide),
    congrArg Machine.delayCount (h0.1 (by decide)),
    congrArg Machine.rateCount (h0.1 (by decide)),
    by decide, (h0.2.2.2.1 (by decide)).1, (h0.2.2.2.1 (by decide)).2⟩

/-! ## C18: channel and button are consistent -/

/-- C18: in every reachable state either `channel = button` (both None, both
Both, both CoolOnly or both WarmOnly) or button is Adjust and channel is Both,
Cool or Warm.  In `button_pressed` (whose settings are the three blocks in
sequence) the button 0 block, when its button is pressed, and the button 1 and
2 blocks, when one of theirs is, end with `channel = button`; a block whose
button is not pressed, and the button 3 and 4 blocks always, leave the channel
alone. -/
theorem channel_consistent (m : Machine) (hm : Reachable m) (s : lampSettings) (P3 : Nat) :
    ((m.settings.channel = m.settings.button ∧
        (m.settings.button = 0 ∨ m.settings.button = 1 ∨ m.settings.button = 2 ∨
          m.settings.button = 4)) ∨
      (m.settings.button = 8 ∧
        (m.settings.channel = 1 ∨ m.settings.channel = 2 ∨ m.settings.channel = 4))) ∧
    (P3 &&& P3_BTN0__BMASK ≠ P3_BTN0__BMASK →
      (toggle_block s P3).channel = (toggle_block s P3).button) ∧
    (P3 &&& P3_BTN0__BMASK = P3_BTN0__BMASK → (toggle_block s P3).channel = s.channel) ∧
    (P3 &&& P3_BTN1__BMASK ≠ P3_BTN1__BMASK ∨ P3 &&& P3_BTN2__BMASK ≠ P3_BTN2__BMASK →
      (select_block s P3).channel = (select_block s P3).button) ∧
    (P3 &&& P3_BTN1__BMASK = P3_BTN1__BMASK → P3 &&& P3_BTN2__BMASK = P3_BTN2__BMASK →
      (select_block s P3).channel = s.channel) ∧
    (adjust_block s P3).channel = s.channel ∧
    (button_pressed m P3).settings =
      { adjust_block (select_block (toggle_block m.settings P3) P3) P3 with
        state := lampState.buttonHeld } := by
  refine ⟨?_, ?_, ?_, ?_, ?_, (adjust_block_fields s P3).2, button_pressed_blocks m P3⟩
  · rcases reachable_mode_inv m hm with h | h | h | h | h
    · left; exact ⟨by rw [h.1, h.2.1], Or.inl h.1⟩
    · left; exact ⟨by rw [h.1, h.2.1], Or.inr (Or.inl h.1)⟩
    · left; exact ⟨by rw [h.1, h.2], Or.inr (Or.inr (Or.inl h.1))⟩
    · left; exact ⟨by rw [h.1, h.2], Or.inr (Or.inr (Or.inr h.1))⟩
    · right; exact h
  · intro h0
    rcases toggle_block_pressed s P3 h0 with h | h
    · rw [h.1, h.2.1]
    · rw [h.1, h.2.1]
  · intro h0; rw [toggle_block_released s P3 h0]
  · intro hp
    rcases select_block_cases s P3 with ⟨h1, h2, _⟩ | ⟨_, h | h⟩
    · rcases hp with hp | hp
      · exact absurd h1 hp
      · exact absurd h2 hp
    · rw [h.1, h.2]
    · rw [h.1, h.2]
  · intro h1 h2
    rcases select_block_cases s P3 with ⟨_, _, e⟩ | ⟨hp, _⟩
    · rw [e]
    · rcases hp with hp | hp
      · exact absurd h1 hp
      · exact absurd h2 hp

/-- C18 on the lamp switched on, with button 1 pressed. -/
theorem channel_consistent_witness :
    lamp_on.settings.channel = lamp_on.settings.button ∧
    P3_only1 &&& P3_BTN1__BMASK ≠ P3_BTN1__BMASK ∧
    (select_block lamp_on.settings P3_only1).channel =
      (select_block lamp_on.settings P3_only1).button :=
  have h := channel_consistent lamp_on
    (reachable_run (cycles [P3_only0]) 15 (main_init 0xFF) (Reachable.init 0xFF))
    lamp_on.settings P3_only1
  ⟨by decide, by decide, h.2.2.2.1 (Or.inl (by decide))⟩

/-! ## C19: the engine is invoked once per action -/

/-- C19: `button_pressed` calls `action` exactly once, on the record produced
by all five button checks; for every settings record `action` calls
`brightness_set` at most once; for every reachable state `action` calls
`brightness_set` exactly once, and one `evaluate_state` tick from a reachable
state logs either nothing or one call of `action` with exactly one call of
`brightness_set`. -/
theorem engine_once (m : Machine) (P3 : Nat) (r : Machine) (hr : Reachable r) :
    (button_pressed m P3).log =
      (action { m with
        settings := adjust_block (select_block (toggle_block m.settings P3) P3) P3 }).log ∧
    List.count Event.actionCall (button_pressed m P3).log =
      List.count Event.actionCall m.log + 1 ∧
    (∃ calls, (action m).log = m.log ++ Event.actionCall :: calls ∧ calls.length ≤ 1 ∧
      ∀ e ∈ calls, e ≠ Event.actionCall) ∧
    (∃ a b, (action r).log = r.log ++ [Event.actionCall, Event.brightnessSet a b]) ∧
    ((evaluate_state r P3).log = r.log ∨
      ∃ a b, (evaluate_state r P3).log =
        r.log ++ [Event.actionCall, Event.brightnessSet a b]) := by
  refine ⟨button_pressed_log m P3, ?_, ?_, ?_, ?_⟩
  · rw [button_pressed_log, action_count]
  · exact ⟨_, action_log m, (action_calls_length _ _ _ _).1, (action_calls_length _ _ _ _).2⟩
  · exact action_log_mode r (reachable_mode_inv r hr)
  · exact tick_log r P3 (reachable_mode_inv r hr)

/-- C19 on the lamp switched on (reachable), with button 0 pressed. -/
theorem engine_once_witness :
    List.count Event.actionCall (button_pressed lamp_on P3_only0).log =
      List.count Event.actionCall lamp_on.log + 1 ∧
    (∃ a b, (action lamp_on).log =
      lamp_on.log ++ [Event.actionCall, Event.brightnessSet a b]) :=
  have h := engine_once lamp_on P3_only0 lamp_on
    (reachable_run (cycles [P3_only0]) 15 (main_init 0xFF) (Reachable.init 0xFF))
  ⟨h.2.1, h.2.2.2.1⟩

/-! ## C20: increase wins over decrease during a hold -/

/-- C20: with buttons 3 and 4 both pressed, a tick of `button_held` on which
the typematic repeat fires runs the increase branch only: the result is that
of the increase branch alone (level incremented, saturating at 255, `action`
called once, `rateCount` reset), the decrease branch finding `rateCount` at 0;
on any other tick only the counters move.  So the level never goes down in
such a tick, and over a hold in which both buttons read pressed on every tick
the machine stays in ButtonHeld and the level is non-decreasing. -/
theorem increase_wins (m : Machine) (P3 : Nat)
    (h3 : pressed P3 P3_BTN3__BMASK) (h4 : pressed P3 P3_BTN4__BMASK)
    (port : Nat → Nat)
    (hport : ∀ i, pressed (port i) P3_BTN3__BMASK ∧ pressed (port i) P3_BTN4__BMASK)
    (hs : m.settings.state = lampState.buttonHeld) :
    (350 ≤ (m.delayCount + 1) % 65536 → 15 ≤ (m.rateCount + 1) % 65536 →
      button_held m P3 =
        { action { m with
            delayCount := (m.delayCount + 1) % 65536
            rateCount := (m.rateCount + 1) % 65536
            settings := { m.settings with
              level := if m.settings.level < 255 then (m.settings.level + 1) % 256
                else m.settings.level } } with
          rateCount := 0 } ∧
      (button_held m P3).settings.level =
        (if m.settings.level < 255 then m.settings.level + 1 else m.settings.level) ∧
      List.count Event.actionCall (button_held m P3).log =
        List.count Event.actionCall m.log + 1) ∧
    (¬ (350 ≤ (m.delayCount + 1) % 65536 ∧ 15 ≤ (m.rateCount + 1) % 65536) →
      button_held m P3 =
        { m with
          delayCount := (m.delayCount + 1) % 65536
          rateCount := (m.rateCount + 1) % 65536 }) ∧
    m.settings.level ≤ (button_held m P3).settings.level ∧
    (∀ n, (run port n m).settings.state = lampState.buttonHeld) ∧
    (∀ i j, i ≤ j → (run port i m).settings.level ≤ (run port j m).settings.level) := by
  unfold pressed at h3 h4
  have ha : P3 &&& P3_BTN_BMASK ≠ P3_BTN_BMASK := fun h =>
    h3 ((all_released_iff P3).mp h).2.2.2.1
  have hstate : ∀ n, (run port n m).settings.state = lampState.buttonHeld := by
    intro n
    induction n with
    | zero => exact hs
    | succ n ih =>
      have hp := (hport n).1
      unfold pressed at hp
      have hq : ¬ (port n &&& P3_BTN_BMASK = P3_BTN_BMASK) := fun h =>
        hp ((all_released_iff (port n)).mp h).2.2.2.1
      rw [run_succ, evaluate_state_held _ _ ih, button_held_state, if_neg hq]
      exact ih
  have hstep : ∀ n, (run port n m).settings.level ≤ (run port (n + 1) m).settings.level := by
    intro n
    have hp := (hport n).1
    unfold pressed at hp
    rw [run_succ, evaluate_state_held _ _ (hstate n)]
    exact button_held_level_mono _ _ hp
  refine ⟨?_, button_held_idle_tick m P3 ha, button_held_level_mono m P3 h3, hstate, ?_⟩
  · intro hd hr
    have e := button_held_both_repeat m P3 h3 h4 hd hr
    refine ⟨e, ?_, ?_⟩
    · rw [button_held_level]
      simp only [hd, hr, h3, and_self, if_true, ne_eq, not_false_eq_true]
      split_ifs <;> omega
    · rw [e]
      dsimp only
      rw [action_count]
  · intro i j hij
    induction j with
    | zero =>
      have : i = 0 := by omega
      rw [this]
    | succ j ih =>
      rcases Nat.eq_or_lt_of_le hij with e | e
      · rw [e]
      · exact Nat.le_trans (ih (by omega)) (hstep j)

/-- C20 on the hold that starts after the lamp was switched on, both buttons
pressed on every tick. -/
theorem increase_wins_witness :
    pressed P3_both34 P3_BTN3__BMASK ∧ pressed P3_both34 P3_BTN4__BMASK ∧
    held_increase.settings.state = lampState.buttonHeld ∧
    held_increase.settings.level ≤ (button_held held_increase P3_both34).settings.level ∧
    (run (fun _ => P3_both34) 400 held_increase).settings.state = lampState.buttonHeld ∧
    (run (fun _ => P3_both34) 3 held_increase).settings.level ≤
      (run (fun _ => P3_both34) 400 held_increase).settings.level :=
  have h := increase_wins held_increase P3_both34 (by decide) (by decide)
    (fun _ => P3_both34)
    (fun _ => ⟨(by decide : pressed P3_both34 P3_BTN3__BMASK),
      (by decide : pressed P3_both34 P3_BTN4__BMASK)⟩) (by decide)
  ⟨by decide, by decide, by decide, h.2.2.1, h.2.2.2.1 400, h.2.2.2.2 3 400 (by decide)⟩

end Lamp
